import Mathlib

set_option maxRecDepth 100000

/-!
Verification of the Electron WordPress plugin generator
(`src/renderer.js` of GeorgeWebDevCy/electron-plugin-generator).

The file shallowly embeds the generator's pure logic in Lean:

* strings are Lean `String`s; every operation the JS code performs on
  strings (`toLowerCase`, `trim`, `split`, regex replaces, template
  interpolation) is implemented structurally on the underlying `List Char`
  so that all definitions are executable and kernel-reducible;
* the filesystem is a record of written files (path, content) and created
  directories; `fs.readdir`, `fs.mkdir` (recursive) and `fs.writeFile` are
  modelled by `readdirFS`, `ensureDirFS` and `writeFileFS`;
* `generatePlugin` mirrors the source function of the same name: it
  resolves the slug and output directory, applies ownership defaults,
  performs the destination-emptiness pre-check, and either fails (leaving
  the filesystem untouched, as the source throws before any write) or
  performs the fixed sequence of directory creations and file writes;
* the object-literal lookups `AVAILABLE_LIBRARIES[lib]` and
  `AVAILABLE_SNIPPETS[snippet]` are modelled three-way by `JsProp`: an
  own catalog entry, an inherited Object.prototype member (truthy, so it
  passes the `if (info)` guard and `info.stubFile(...)` throws
  "info.stubFile is not a function"), or `undefined` (skipped);
  accordingly the stub loops and the generation phase return an
  `Except String Unit` outcome alongside the filesystem;
* the IPC handler for "generate-plugin" is `handleGeneratePlugin`, which
  returns `ok` (carrying the optional pluginPath field of the JS result
  object, which the source never sets) or `err` with the error message.

PHP template text is transcribed verbatim from the source template
literals (quote characters and braces appear via their escape codes).
-/

/-! ## Character and string primitives (kernel-computable) -/

/-- The single-quote character `'` (used by the PHP string escaper). -/
def quoteChar : Char := Char.ofNat 39

/-- The backslash character `\`. -/
def backslashChar : Char := Char.ofNat 92

/-- Membership in the character class `[a-z0-9]` used by the `slugify`
and settings-format regexes of the source. -/
def isSlugChar (c : Char) : Bool :=
  (('a' ≤ c) && (c ≤ 'z')) || (('0' ≤ c) && (c ≤ '9'))

/-- JS `String.prototype.toLowerCase`, modelled per character. -/
def strToLower (s : String) : String := String.mk (s.data.map Char.toLower)

/-- JS `String.prototype.toUpperCase`, modelled per character. -/
def strToUpper (s : String) : String := String.mk (s.data.map Char.toUpper)

/-- Drop leading whitespace, for the model of JS `trim`. -/
def trimChars (l : List Char) : List Char :=
  ((l.dropWhile Char.isWhitespace).reverse.dropWhile Char.isWhitespace).reverse

/-- JS `String.prototype.trim` (leading and trailing whitespace removed). -/
def jsTrim (s : String) : String := String.mk (trimChars s.data)

/-- Split a character list at every occurrence of `sep`, keeping empty
segments, like JS `String.prototype.split` with a single-char separator. -/
def splitChar (sep : Char) : List Char → List (List Char)
  | [] => [[]]
  | c :: rest =>
    if c = sep then [] :: splitChar sep rest
    else match splitChar sep rest with
      | [] => [[c]]
      | seg :: segs => (c :: seg) :: segs

/-- JS `slug.split('-')`. -/
def splitOnDash (s : String) : List String := (splitChar ('-') s.data).map String.mk

/-- JS `Array.prototype.join('')` over strings. -/
def strJoin : List String → String
  | [] => ""
  | s :: rest => s ++ strJoin rest

/-! ## NameDeriver: `slugify` and the namespace derivation -/

/-- One pass of the regex replacement `/[^a-z0-9]+/g → '-'`: characters of
the class are kept, and each maximal run of characters outside the class
is replaced by a single `'-'`.  The boolean flag records whether the
previous character was part of such a run. -/
def replRuns : List Char → Bool → List Char
  | [], _ => []
  | c :: rest, inRun =>
    if isSlugChar c then c :: replRuns rest false
    else if inRun then replRuns rest true
    else '-' :: replRuns rest true

/-- Drop a leading run of `'-'` characters (`/^\-+/ → ''`). -/
def dropLeadingDashes : List Char → List Char
  | [] => []
  | c :: rest => if c = '-' then dropLeadingDashes rest else c :: rest

/-- Strip leading and trailing dashes (`/^\-+|\-+$/g → ''`). -/
def trimDashes (l : List Char) : List Char :=
  (dropLeadingDashes (dropLeadingDashes l).reverse).reverse

/-- `slugify` from src/renderer.js: lowercase, replace runs of
non-alphanumerics with single dashes, trim leading/trailing dashes. -/
def slugify (name : String) : String :=
  String.mk (trimDashes (replRuns (strToLower name).data false))

/-- JS `part.charAt(0).toUpperCase() + part.slice(1)` (empty string maps
to the empty string, exactly as `charAt`/`slice` behave on it). -/
def capFirst (s : String) : String :=
  match s.data with
  | [] => ""
  | c :: rest => String.mk (Char.toUpper c :: rest)

/-- The namespace derivation used throughout src/renderer.js:
`slug.split('-').map(p => p.charAt(0).toUpperCase() + p.slice(1)).join('')`. -/
def toNamespace (slug : String) : String := strJoin ((splitOnDash slug).map capFirst)

/-! ## The PHP string escaper of the settings snippet -/

/-- One global single-character regex replacement: every occurrence of
`target` becomes the sequence `repl`. -/
def replacePass (target : Char) (repl : List Char) : List Char → List Char
  | [] => []
  | c :: rest => (if c = target then repl else [c]) ++ replacePass target repl rest

/-- `escapePhpString` from the settings snippet: on a falsy (empty) value
return `''`; otherwise `value.replace(/\\/g, '\\\\').replace(/'/g, "\\'")`. -/
def escapePhpString (value : String) : String :=
  if value = "" then ""
  else String.mk (replacePass quoteChar [backslashChar, quoteChar]
    (replacePass backslashChar [backslashChar, backslashChar] value.data))

/-- Specification rendering of the escaper (for the refinement theorem):
a single pass mapping `\` to `\\`, `'` to `\'` and leaving every other
character unchanged. -/
def escapePhpSpecChar (c : Char) : List Char :=
  if c = backslashChar then [backslashChar, backslashChar]
  else if c = quoteChar then [backslashChar, quoteChar]
  else [c]

/-- Concatenate the single-pass escape of every character. -/
def escList : List Char → List Char
  | [] => []
  | c :: rest => escapePhpSpecChar c ++ escList rest

/-- The single-pass escaper the spec describes. -/
def escapePhpSpec (s : String) : String := String.mk (escList s.data)

/-! ## Data model: options records and the settings configuration -/

/-- The `settingsConfig` record accepted by the settings snippet.  A JS
field that is absent or empty is falsy either way; both are modelled by
the empty string. -/
structure SettingsConfig where
  pageTitle : String
  menuSlug : String
  capability : String
  parentMenu : String
  format : String

/-- The `{}` the source substitutes for a missing settingsConfig. -/
def SettingsConfig.empty : SettingsConfig :=
  { pageTitle := "", menuSlug := "", capability := "", parentMenu := "", format := "" }

/-- The options record the renderer form sends over IPC (field names as in
src/renderer.js; `settingsConfig` is `none` when the caller omits it). -/
structure PluginOptions where
  name : String
  slug : String
  description : String
  version : String
  author : String
  authorUri : String
  pluginUri : String
  requiresAtLeast : String
  testedUpTo : String
  requiresPhp : String
  repo : String
  branch : String
  withComposer : Bool
  outputDir : String
  libraries : List String
  snippets : List String
  settingsConfig : Option SettingsConfig

/-! ## The settings snippet stub (AVAILABLE_SNIPPETS.settings.stubFile) -/

/-- `escapePhpString(settingsConfig.pageTitle || 'Plugin Settings')`. -/
def settingsResolvedPageTitle (settingsConfig : SettingsConfig) : String :=
  escapePhpString
    (if settingsConfig.pageTitle = "" then "Plugin Settings" else settingsConfig.pageTitle)

/-- `escapePhpString(settingsConfig.menuSlug || slug + '-settings')`. -/
def settingsResolvedMenuSlug (slug : String) (settingsConfig : SettingsConfig) : String :=
  escapePhpString
    (if settingsConfig.menuSlug = "" then slug ++ "-settings" else settingsConfig.menuSlug)

/-- `escapePhpString(settingsConfig.capability || 'manage_options')`. -/
def settingsResolvedCapability (settingsConfig : SettingsConfig) : String :=
  escapePhpString
    (if settingsConfig.capability = "" then "manage_options" else settingsConfig.capability)

/-- `escapePhpString(settingsConfig.parentMenu || 'options-general.php')`. -/
def settingsResolvedParentMenu (settingsConfig : SettingsConfig) : String :=
  escapePhpString
    (if settingsConfig.parentMenu = "" then "options-general.php" else settingsConfig.parentMenu)

/-- `(settingsConfig.format || 'json').toLowerCase()`. -/
def settingsFormatInput (settingsConfig : SettingsConfig) : String :=
  strToLower (if settingsConfig.format = "" then "json" else settingsConfig.format)

/-- `formatInput.replace(/[^a-z0-9]/g, '')`. -/
def settingsStrippedFormat (settingsConfig : SettingsConfig) : String :=
  String.mk ((settingsFormatInput settingsConfig).data.filter isSlugChar)

/-- `formatInput.replace(/[^a-z0-9]/g, '') || 'json'`. -/
def settingsNormalizedFormat (settingsConfig : SettingsConfig) : String :=
  if settingsStrippedFormat settingsConfig = "" then "json"
  else settingsStrippedFormat settingsConfig

/-- `escapePhpString(normalizedFormat)`. -/
def settingsResolvedFormat (settingsConfig : SettingsConfig) : String :=
  escapePhpString (settingsNormalizedFormat settingsConfig)

/-- `normalizedFormat.toUpperCase()`. -/
def settingsFormatLabel (settingsConfig : SettingsConfig) : String :=
  strToUpper (settingsNormalizedFormat settingsConfig)

/-- The settings snippet stub file text (template of src/renderer.js lines
107-126, with the resolved and escaped configuration values inserted). -/
def settingsStubFile (slug : String) (settingsConfig : SettingsConfig) : String :=
  let capSlug := toNamespace slug
  let resolvedPageTitle := settingsResolvedPageTitle settingsConfig
  let resolvedMenuSlug := settingsResolvedMenuSlug slug settingsConfig
  let resolvedCapability := settingsResolvedCapability settingsConfig
  let resolvedParentMenu := settingsResolvedParentMenu settingsConfig
  let resolvedFormat := settingsResolvedFormat settingsConfig
  let formatLabel := settingsFormatLabel settingsConfig
  "<?php\n/**\n * Import/Export settings snippet.\n *\n * This class registers an admin page for exporting and importing plugin options.\n * Customize the render, export, and import methods to fit your data.\n */\nclass " ++ capSlug ++ "_Settings \x7b\n    protected $page_title = \x27" ++ resolvedPageTitle ++ "\x27;\n    protected $menu_slug = \x27" ++ resolvedMenuSlug ++ "\x27;\n    protected $capability = \x27" ++ resolvedCapability ++ "\x27;\n    protected $parent_menu = \x27" ++ resolvedParentMenu ++ "\x27;\n    protected $format = \x27" ++ resolvedFormat ++ "\x27;\n\n    public function register() \x7b\n        add_action( \x27admin_menu\x27, array( $this, \x27add_admin_menus\x27 ) );\n    \x7d\n\n    public function add_admin_menus() \x7b\n        add_submenu_page(\n            $this->parent_menu,\n            $this->page_title,\n            $this->page_title,\n            $this->capability,\n            $this->menu_slug,\n            array( $this, \x27render_settings_page\x27 )\n        );\n    \x7d\n\n    public function render_settings_page() \x7b\n        // Render your admin form for exporting or importing settings.\n    \x7d\n\n    public function export_settings() \x7b\n        // Output settings as " ++ formatLabel ++ " and trigger download.\n    \x7d\n\n    public function import_settings() \x7b\n        // Handle the uploaded " ++ formatLabel ++ " file and persist settings.\n    \x7d\n\x7d\n"

/-! ## Library catalog (AVAILABLE_LIBRARIES) -/

/-- The CMB2 library stub file text. -/
def cmb2StubFile (slug : String) : String :=
  let capSlug := toNamespace slug
  "<?php\n/**\n * Stub file for integrating the CMB2 metabox library.\n *\n * This class is a placeholder. Install the cmb2/cmb2 package via Composer\n * and then build your metaboxes using the CMB2 API.\n */\nclass " ++ capSlug ++ "_CMB2 \x7b\n    public function register_metaboxes() \x7b\n        // Define your metaboxes here using CMB2 functions.\n    \x7d\n\x7d\n"

/-- The CronPlus library stub file text. -/
def cronStubFile (slug : String) : String :=
  let capSlug := toNamespace slug
  "<?php\n/**\n * Stub file for CronPlus integration.\n *\n * Use this class to schedule and run cron events. The CronPlus package\n * simplifies adding and removing cron jobs.\n */\nclass " ++ capSlug ++ "_Cron \x7b\n    public function activate() \x7b\n        // Schedule events.\n    \x7d\n    public function deactivate() \x7b\n        // Clear scheduled events.\n    \x7d\n\x7d\n"

/-- The Widgets Helper library stub file text. -/
def widgetsStubFile (slug : String) : String :=
  let capSlug := toNamespace slug
  "<?php\n/**\n * Stub file for Widgets Helper integration.\n *\n * This class demonstrates how to register a custom widget using\n * the Widgets Helper library.\n */\nclass " ++ capSlug ++ "_Widgets \x7b\n    public function register() \x7b\n        // Register widgets here.\n    \x7d\n\x7d\n"

/-- A library catalog entry: a Composer dependency line and a stub file
generator. -/
structure LibraryInfo where
  composer : String
  stubFile : String → String

/-- The result of the JS property lookup `obj[key]` on an object literal:
the key may be an own property (a catalog entry), an inherited truthy
member of Object.prototype (e.g. "constructor", "toString", "__proto__",
on which the stub loops then throw because `.stubFile` is undefined), or
absent (`undefined`, falsy, so an `if (info)` guard skips it). -/
inductive JsProp (α : Type) where
  | own (value : α)
  | inherited
  | absent

/-- The member names every object literal inherits from Object.prototype;
looked up with `obj[key]` they yield a truthy value (a function, or the
prototype object itself for `__proto__`). -/
def objectProtoMember (k : String) : Bool :=
  k = "constructor" || k = "hasOwnProperty" || k = "isPrototypeOf" ||
    k = "propertyIsEnumerable" || k = "toLocaleString" || k = "toString" || k = "valueOf" ||
    k = "__proto__" || k = "__defineGetter__" || k = "__defineSetter__" ||
    k = "__lookupGetter__" || k = "__lookupSetter__"

/-- The TypeError message Node raises when a stub loop calls
`info.stubFile(...)` on an inherited member (whose `stubFile` field is
undefined). -/
def stubNotFunctionMsg : String := "info.stubFile is not a function"

/-- The JS lookup `AVAILABLE_LIBRARIES[lib]`: the three own catalog
entries, else the inherited Object.prototype members, else undefined. -/
def AVAILABLE_LIBRARIES (lib : String) : JsProp LibraryInfo :=
  if lib = "cmb2" then
    JsProp.own { composer := "\"cmb2/cmb2\": \"^2.10\"", stubFile := cmb2StubFile }
  else if lib = "cron" then
    JsProp.own { composer := "\"wpbp/cronplus\": \"^1.0\"", stubFile := cronStubFile }
  else if lib = "widgets" then
    JsProp.own { composer := "\"wpbp/widgets-helper\": \"^1.0\"", stubFile := widgetsStubFile }
  else if objectProtoMember lib then JsProp.inherited
  else JsProp.absent

/-- A snippet catalog entry: a stub file generator taking the slug and the
settings configuration. -/
structure SnippetInfo where
  stubFile : String → SettingsConfig → String

/-- The JS lookup `AVAILABLE_SNIPPETS[snippet]`: the own "settings" entry,
else the inherited Object.prototype members, else undefined. -/
def AVAILABLE_SNIPPETS (snippet : String) : JsProp SnippetInfo :=
  if snippet = "settings" then JsProp.own { stubFile := settingsStubFile }
  else if objectProtoMember snippet then JsProp.inherited
  else JsProp.absent

/-- Whether a library identifier is an own entry of the fixed catalog. -/
def isKnownLibrary (lib : String) : Bool :=
  match AVAILABLE_LIBRARIES lib with
  | JsProp.own _ => true
  | _ => false

/-- Whether a snippet identifier is an own entry of the fixed catalog. -/
def isKnownSnippet (snippet : String) : Bool :=
  match AVAILABLE_SNIPPETS snippet with
  | JsProp.own _ => true
  | _ => false

/-- Whether the library lookup yields `undefined` — the identifiers the
stub loop silently skips. -/
def libraryAbsent (lib : String) : Bool :=
  match AVAILABLE_LIBRARIES lib with
  | JsProp.absent => true
  | _ => false

/-- Whether the snippet lookup yields `undefined` — the identifiers the
stub loop silently skips. -/
def snippetAbsent (snippet : String) : Bool :=
  match AVAILABLE_SNIPPETS snippet with
  | JsProp.absent => true
  | _ => false

/-- The identifiers the library stub loop does NOT silently skip: own
catalog entries (a stub is written) and inherited Object.prototype
members (the loop throws). -/
def libraryKept (lib : String) : Bool := !(libraryAbsent lib)

/-- The identifiers the snippet stub loop does NOT silently skip. -/
def snippetKept (snippet : String) : Bool := !(snippetAbsent snippet)

/-! ## Template generator functions -/

/-- One `require_once` line of the core class, as appended by
`generateCoreClass` for each selected library or snippet identifier. -/
def requireLineFor (slug lib : String) : String :=
  "        require_once plugin_dir_path( __FILE__ ) . \x27class-" ++ slug ++ "-" ++ lib ++
    ".php\x27;\n"

/-- The accumulation loop `extraRequires += ...` over one identifier list. -/
def requireLines (slug : String) : List String → String
  | [] => ""
  | l :: rest => requireLineFor slug l ++ requireLines slug rest

/-- `generateMainPluginFile` from src/renderer.js: plugin header comment,
optional update-checker block (only when a repo URL is set) and the
bootstrap code. -/
def generateMainPluginFile (opts : PluginOptions)
    (slug nspace pluginClass loaderClass adminClass publicClass activatorClass
      deactivatorClass : String) : String :=
  let repoUrl := opts.repo
  let useLine := "use YahnisElsts\\PluginUpdateChecker\\v5\\PucFactory;"
  let updateCode :=
    if repoUrl = "" then ""
    else
      "\n            // Include the plugin-update-checker library. If installed via Composer the\n            // autoloader will make this class available automatically.\n            if ( file_exists( __DIR__ . \x27/plugin-update-checker/plugin-update-checker.php\x27 ) ) \x7b\n                require_once __DIR__ . \x27/plugin-update-checker/plugin-update-checker.php\x27;\n            \x7d\n\n            " ++ useLine ++ "\n\n            // Initialize the update checker to point at your public GitHub repo.\n            $update_checker = PucFactory::buildUpdateChecker(\n                \x27" ++ repoUrl ++ "\x27,\n                __FILE__,\n                \x27" ++ slug ++ "\x27\n            );\n\n            // Set the branch that contains the stable release. For most repos this is \x27main\x27 or \x27master\x27.\n            $update_checker->setBranch(\x27" ++ opts.branch ++ "\x27);\n\n            // Optionally set the authentication token if your repository is private.\n            // $update_checker->setAuthentication( \x27your-access-token\x27 );\n"
  let pluginUri := if opts.pluginUri = "" then repoUrl else opts.pluginUri
  let updateUri :=
    if repoUrl = "" then (if opts.pluginUri = "" then "" else opts.pluginUri) else repoUrl
  let header :=
    "/*\n * Plugin Name:       " ++ opts.name ++ "\n * Plugin URI:        " ++ pluginUri ++ "\n * Description:       " ++ opts.description ++ "\n * Version:           " ++ opts.version ++ "\n * Requires at least: " ++ opts.requiresAtLeast ++ "\n * Requires PHP:      " ++ opts.requiresPhp ++ "\n * Author:            " ++ opts.author ++ "\n * Author URI:        " ++ opts.authorUri ++ "\n * License:           GPL v2 or later\n * License URI:       https://www.gnu.org/licenses/gpl-2.0.html\n * Text Domain:       " ++ slug ++ "\n * Domain Path:       /languages\n * Update URI:        " ++ updateUri ++ "\n */\n"
  let body :=
    "defined( \x27ABSPATH\x27 ) || exit; // Exit if accessed directly.\n\nfunction activate_" ++ slug ++ "() \x7b\n    " ++ nspace ++ "::activate();\n\x7d\n\nfunction deactivate_" ++ slug ++ "() \x7b\n    " ++ nspace ++ "::deactivate();\n\x7d\n\nregister_activation_hook( __FILE__, \x27activate_" ++ slug ++ "\x27 );\nregister_deactivation_hook( __FILE__, \x27deactivate_" ++ slug ++ "\x27 );\n\nfunction run_" ++ slug ++ "() \x7b\n    $plugin = new " ++ nspace ++ "();\n    $plugin->run();\n\x7d\n\nrun_" ++ slug ++ "();\n"
  header ++ "\n" ++ updateCode ++ "\n" ++ body

/-- `generateActivationClass`. -/
def generateActivationClass (activatorClass : String) : String :=
  "<?php\n/**\n * Fired during plugin activation.\n *\n * @since    1.0.0\n */\nclass " ++ activatorClass ++ " \x7b\n    public static function activate() \x7b\n        // Activation logic here (create options, database tables, etc.)\n    \x7d\n\x7d\n"

/-- `generateDeactivationClass`. -/
def generateDeactivationClass (deactivatorClass : String) : String :=
  "<?php\n/**\n * Fired during plugin deactivation.\n *\n * @since    1.0.0\n */\nclass " ++ deactivatorClass ++ " \x7b\n    public static function deactivate() \x7b\n        // Cleanup logic here (delete options, cron jobs, etc.)\n    \x7d\n\x7d\n"

/-- `generateLoaderClass`. -/
def generateLoaderClass (loaderClass : String) : String :=
  "<?php\n/**\n * Define the core functionality of the plugin.\n *\n * @since    1.0.0\n */\nclass " ++ loaderClass ++ " \x7b\n    protected $actions = array();\n    protected $filters = array();\n    public function add_action( $hook, $component, $callback, $priority = 10, $accepted_args = 1 ) \x7b\n        $this->actions[] = array( $hook, $component, $callback, $priority, $accepted_args );\n    \x7d\n    public function add_filter( $hook, $component, $callback, $priority = 10, $accepted_args = 1 ) \x7b\n        $this->filters[] = array( $hook, $component, $callback, $priority, $accepted_args );\n    \x7d\n    public function run() \x7b\n        foreach ( $this->filters as $hook ) \x7b\n            add_filter( $hook[0], array( $hook[1], $hook[2] ), $hook[3], $hook[4] );\n        \x7d\n        foreach ( $this->actions as $hook ) \x7b\n            add_action( $hook[0], array( $hook[1], $hook[2] ), $hook[3], $hook[4] );\n        \x7d\n    \x7d\n\x7d\n"

/-- `generateCoreClass`: the core plugin class, with one `require_once`
line per entry of `opts.libraries` and `opts.snippets` (in list order, no
catalog filtering) inserted before the loader construction. -/
def generateCoreClass (pluginClass loaderClass adminClass publicClass nspace slug : String)
    (opts : PluginOptions) : String :=
  let extraRequires := requireLines slug opts.libraries ++ requireLines slug opts.snippets
  "<?php\n/**\n * The core class that defines internationalization, admin and public hooks.\n *\n * @since      1.0.0\n * @author     " ++ opts.author ++ "\n */\nclass " ++ pluginClass ++ " \x7b\n    protected $plugin_name = \x27" ++ slug ++ "\x27;\n    protected $version = \x27" ++ opts.version ++ "\x27;\n    protected $loader;\n    public function __construct() \x7b\n        $this->load_dependencies();\n        $this->set_locale();\n        $this->define_admin_hooks();\n        $this->define_public_hooks();\n    \x7d\n    private function load_dependencies() \x7b\n        require_once plugin_dir_path( __FILE__ ) . \x27class-" ++ slug ++ "-loader.php\x27;\n        require_once plugin_dir_path( __FILE__ ) . \x27class-" ++ slug ++ "-activator.php\x27;\n        require_once plugin_dir_path( __FILE__ ) . \x27class-" ++ slug ++ "-deactivator.php\x27;\n        require_once plugin_dir_path( __DIR__ ) . \x27admin/class-" ++ slug ++ "-admin.php\x27;\n        require_once plugin_dir_path( __DIR__ ) . \x27public/class-" ++ slug ++ "-public.php\x27;\n" ++ extraRequires ++ ("        $this->loader = new " ++ loaderClass ++ "();\n    \x7d\n    private function set_locale() \x7b\n        load_plugin_textdomain( \x27" ++ slug ++ "\x27, false, dirname( plugin_basename( __FILE__ ) ) . \x27/languages/\x27 );\n    \x7d\n    private function define_admin_hooks() \x7b\n        $plugin_admin = new " ++ adminClass ++ "( $this->plugin_name, $this->version );\n        $this->loader->add_action( \x27admin_enqueue_scripts\x27, $plugin_admin, \x27enqueue_styles\x27 );\n        $this->loader->add_action( \x27admin_enqueue_scripts\x27, $plugin_admin, \x27enqueue_scripts\x27 );\n    \x7d\n    private function define_public_hooks() \x7b\n        $plugin_public = new " ++ publicClass ++ "( $this->plugin_name, $this->version );\n        $this->loader->add_action( \x27wp_enqueue_scripts\x27, $plugin_public, \x27enqueue_styles\x27 );\n        $this->loader->add_action( \x27wp_enqueue_scripts\x27, $plugin_public, \x27enqueue_scripts\x27 );\n    \x7d\n    public function run() \x7b\n        $this->loader->run();\n    \x7d\n\x7d\n")

/-- `generateAdminClass`. -/
def generateAdminClass (adminClass slug : String) : String :=
  "<?php\n/**\n * Define the admin area functionality of the plugin.\n *\n * @since      1.0.0\n */\nclass " ++ adminClass ++ " \x7b\n    protected $plugin_name;\n    protected $version;\n    public function __construct( $plugin_name, $version ) \x7b\n        $this->plugin_name = $plugin_name;\n        $this->version     = $version;\n    \x7d\n    public function enqueue_styles() \x7b\n        wp_enqueue_style( $this->plugin_name, plugin_dir_url( __FILE__ ) . \x27css/" ++ slug ++ "-admin.css\x27, array(), $this->version, \x27all\x27 );\n    \x7d\n    public function enqueue_scripts() \x7b\n        wp_enqueue_script( $this->plugin_name, plugin_dir_url( __FILE__ ) . \x27js/" ++ slug ++ "-admin.js\x27, array( \x27jquery\x27 ), $this->version, false );\n    \x7d\n\x7d\n"

/-- `generatePublicClass`. -/
def generatePublicClass (publicClass slug : String) : String :=
  "<?php\n/**\n * Define the public-facing functionality of the plugin.\n *\n * @since      1.0.0\n */\nclass " ++ publicClass ++ " \x7b\n    protected $plugin_name;\n    protected $version;\n    public function __construct( $plugin_name, $version ) \x7b\n        $this->plugin_name = $plugin_name;\n        $this->version     = $version;\n    \x7d\n    public function enqueue_styles() \x7b\n        wp_enqueue_style( $this->plugin_name, plugin_dir_url( __FILE__ ) . \x27css/" ++ slug ++ "-public.css\x27, array(), $this->version, \x27all\x27 );\n    \x7d\n    public function enqueue_scripts() \x7b\n        wp_enqueue_script( $this->plugin_name, plugin_dir_url( __FILE__ ) . \x27js/" ++ slug ++ "-public.js\x27, array( \x27jquery\x27 ), $this->version, false );\n    \x7d\n\x7d\n"

/-- `generateReadme`. -/
def generateReadme (opts : PluginOptions) (slug : String) : String :=
  "=== " ++ opts.name ++ " ===\n\nContributors: orionaselite\nTags: custom\nRequires at least: " ++ opts.requiresAtLeast ++ "\nTested up to: " ++ opts.testedUpTo ++ "\nRequires PHP: " ++ opts.requiresPhp ++ "\nStable tag: " ++ opts.version ++ "\nLicense: GPLv2 or later\nLicense URI: https://www.gnu.org/licenses/gpl-2.0.html\nUpdate URI: " ++ (if opts.repo = "" then (if opts.pluginUri = "" then "" else opts.pluginUri) else opts.repo) ++ "\n\n" ++ opts.description ++ "\n\n== Changelog ==\n\n= " ++ opts.version ++ " =\n* Initial release.\n"

/-- The loop collecting `info.composer` for each selected library: the
guard `info && info.composer` keeps exactly the own catalog entries
(every one carries a non-empty composer line); an inherited member is
truthy but its `composer` field is undefined, so it is skipped here
without an error. -/
def composerEntries : List String → List String
  | [] => []
  | lib :: rest =>
    match AVAILABLE_LIBRARIES lib with
    | JsProp.own info => info.composer :: composerEntries rest
    | JsProp.inherited => composerEntries rest
    | JsProp.absent => composerEntries rest

/-- `requireEntries.join(',\n        ')`. -/
def joinEntries : List String → String
  | [] => ""
  | [e] => e
  | e :: rest => e ++ ",\n        " ++ joinEntries rest

/-- `generateComposerJson`: dependency manifest with an update-checker
entry when a repo is set, plus one entry per selected catalog library. -/
def generateComposerJson (opts : PluginOptions) (slug nspace : String) : String :=
  let requireEntries :=
    (if opts.repo = "" then [] else ["\"yahnis-elsts/plugin-update-checker\": \"^5.6\""]) ++
      composerEntries opts.libraries
  let requireString :=
    if requireEntries = [] then ""
    else "\n        " ++ joinEntries requireEntries ++ "\n    "
  "\x7b\n    \"name\": \"custom/" ++ slug ++ "\",\n    \"description\": \"" ++ opts.description ++ "\",\n    \"type\": \"wordpress-plugin\",\n    \"authors\": [\n        \x7b\n            \"name\": \"" ++ opts.author ++ "\",\n            \"homepage\": \"" ++ opts.authorUri ++ "\"\n        \x7d\n    ],\n    \"require\": \x7b" ++ requireString ++ "\x7d,\n    \"autoload\": \x7b\n        \"psr-4\": \x7b\n            \"" ++ nspace ++ "\\\\\": \"includes/\"\n        \x7d\n    \x7d\n\x7d\n"

/-! ## Substring and prefix search (kernel-computable) -/

/-- Whether `n` is a prefix of `h` (plain structural recursion). -/
def listStartsWith : List Char → List Char → Bool
  | [], _ => true
  | _ :: _, [] => false
  | a :: as, b :: bs => a = b && listStartsWith as bs

/-- Whether `n` occurs contiguously somewhere in `h`. -/
def listContainsSeq (n : List Char) : List Char → Bool
  | [] => listStartsWith n []
  | h :: t => listStartsWith n (h :: t) || listContainsSeq n t

/-- Whether string `n` occurs as a contiguous substring of `h`. -/
def strContainsSub (n h : String) : Bool := listContainsSeq n.data h.data

/-- Whether string `pre` is a prefix of `s`. -/
def strStartsWith (pre s : String) : Bool := listStartsWith pre.data s.data

/-! ## Filesystem model -/

/-- A filesystem: written files as ordered (path, content) pairs, and the
set of directories known to exist. -/
structure FileSystem where
  files : List (String × String)
  dirs : List String

/-- The empty filesystem. -/
def emptyFS : FileSystem := { files := [], dirs := [] }

/-- Node `path.join` for the already-normalized segments this program
joins (no trailing separators, no `..`). -/
def pathJoin (a b : String) : String :=
  if a = "" then (if b = "" then "." else b)
  else if b = "" then a
  else a ++ "/" ++ b

/-- Node `path.dirname` for the slash-joined paths this program writes. -/
def dirnameOf (p : String) : String :=
  let parts := splitChar ('/') p.data
  if parts.length ≤ 1 then "." else String.mk (strJoin ((parts.dropLast.map String.mk).intersperse ("/"))).data

/-- `fs.mkdir(path, { recursive: true })`: record the directory as
existing (idempotent). -/
def ensureDirFS (fs : FileSystem) (p : String) : FileSystem :=
  if p ∈ fs.dirs then fs else { fs with dirs := fs.dirs ++ [p] }

/-- Insert or overwrite the file at `p`. -/
def upsertFile : List (String × String) → String → String → List (String × String)
  | [], p, c => [(p, c)]
  | (q, d) :: rest, p, c =>
    if q = p then (p, c) :: rest else (q, d) :: upsertFile rest p c

/-- `writeFile` of src/renderer.js: ensure the parent directory exists,
then write the contents at the path (overwrite semantics). -/
def writeFileFS (fs : FileSystem) (p content : String) : FileSystem :=
  let fs1 := ensureDirFS fs (dirnameOf p)
  { fs1 with files := upsertFile fs1.files p content }

/-- The entries living under directory `p` (used only for the emptiness
check `existing.length > 0`). -/
def entriesUnder (fs : FileSystem) (p : String) : List String :=
  (fs.files.map Prod.fst ++ fs.dirs).filter (fun q => strStartsWith (p ++ "/") q)

/-- `fs.readdir(p)`: `none` models the ENOENT rejection (directory does
not exist), `some entries` the listing of an existing directory. -/
def readdirFS (fs : FileSystem) (p : String) : Option (List String) :=
  if p ∈ fs.dirs ∨ entriesUnder fs p ≠ [] then some (entriesUnder fs p) else none

/-! ## The generation orchestrator (generatePlugin) -/

/-- `const slug = opts.slug && opts.slug.trim() !== '' ? opts.slug : slugify(opts.name)`. -/
def resolveSlug (opts : PluginOptions) : String :=
  if opts.slug ≠ "" ∧ jsTrim opts.slug ≠ "" then opts.slug else slugify opts.name

/-- `const outputDir = opts.outputDir || process.cwd()`. -/
def resolveOutputDir (opts : PluginOptions) (cwd : String) : String :=
  if opts.outputDir = "" then cwd else opts.outputDir

/-- `const pluginDir = path.join(outputDir, slug)`. -/
def pluginDirOf (opts : PluginOptions) (cwd : String) : String :=
  pathJoin (resolveOutputDir opts cwd) (resolveSlug opts)

/-- Fixed fallback author identity. -/
def defaultAuthor : String := "George Nicolaou"

/-- Fixed fallback author URI. -/
def defaultAuthorUri : String := "https://www.georgenicolaou.me"

/-- Fixed base URI for the pluginUri fallback. -/
def pluginBaseUri : String := "https://www.georgenicolaou.me/plugins/"

/-- The `normalizedOpts` record of `generatePlugin`: author, authorUri and
pluginUri fall back to the fixed defaults when absent or blank; every
other field (branch included) is passed through unchanged. -/
def normalizeOpts (opts : PluginOptions) (slug : String) : PluginOptions :=
  { opts with
    author := if opts.author ≠ "" ∧ jsTrim opts.author ≠ "" then opts.author else defaultAuthor,
    authorUri :=
      if opts.authorUri ≠ "" ∧ jsTrim opts.authorUri ≠ "" then opts.authorUri
      else defaultAuthorUri,
    pluginUri :=
      if opts.pluginUri ≠ "" ∧ jsTrim opts.pluginUri ≠ "" then opts.pluginUri
      else pluginBaseUri ++ slug ++ "/" }

/-- The fixed subdirectory layout created under the plugin root. -/
def subdirList : List String :=
  ["includes", "admin", pathJoin ("admin") ("css"), pathJoin ("admin") ("js"), "public",
    pathJoin ("public") ("css"), pathJoin ("public") ("js"), "languages"]

/-- The library stub loop of `generatePlugin`: for each selected
identifier whose lookup is an own catalog entry, write its stub file
under includes/; an absent identifier (`undefined`, falsy) is skipped by
the `if (info)` guard; an inherited Object.prototype member passes the
guard and `info.stubFile(slug)` throws a TypeError, aborting the loop
and the whole generation with that message (files already written
remain). -/
def writeLibraryStubs (slug pluginDir : String) :
    List String → FileSystem → Except String Unit × FileSystem
  | [], fs => (Except.ok (), fs)
  | lib :: rest, fs =>
    match AVAILABLE_LIBRARIES lib with
    | JsProp.own info =>
      writeLibraryStubs slug pluginDir rest
        (writeFileFS fs
          (pathJoin (pathJoin pluginDir ("includes")) ("class-" ++ slug ++ "-" ++ lib ++ ".php"))
          (info.stubFile slug))
    | JsProp.inherited => (Except.error stubNotFunctionMsg, fs)
    | JsProp.absent => writeLibraryStubs slug pluginDir rest fs

/-- The snippet stub loop of `generatePlugin`; the settings snippet
receives `opts.settingsConfig || {}`.  Absent and inherited identifiers
behave as in the library loop (skip, respectively throw). -/
def writeSnippetStubs (slug pluginDir : String) (settingsConfig : Option SettingsConfig) :
    List String → FileSystem → Except String Unit × FileSystem
  | [], fs => (Except.ok (), fs)
  | snippet :: rest, fs =>
    match AVAILABLE_SNIPPETS snippet with
    | JsProp.own info =>
      writeSnippetStubs slug pluginDir settingsConfig rest
        (writeFileFS fs
          (pathJoin (pathJoin pluginDir ("includes"))
            ("class-" ++ slug ++ "-" ++ snippet ++ ".php"))
          (info.stubFile slug
            (if snippet = "settings" then settingsConfig.getD SettingsConfig.empty
            else SettingsConfig.empty)))
    | JsProp.inherited => (Except.error stubNotFunctionMsg, fs)
    | JsProp.absent => writeSnippetStubs slug pluginDir settingsConfig rest fs

/-- The two sequenced stub loops at the end of `generatePlugin`: a throw
in the library loop aborts before the snippet loop runs. -/
def writeStubPhase (slug pluginDir : String) (settingsConfig : Option SettingsConfig)
    (libraries snippets : List String) (fs : FileSystem) : Except String Unit × FileSystem :=
  match writeLibraryStubs slug pluginDir libraries fs with
  | (Except.ok _, fs2) => writeSnippetStubs slug pluginDir settingsConfig snippets fs2
  | (Except.error e, fs2) => (Except.error e, fs2)

/-- Everything `generatePlugin` does after the destination pre-check
succeeds: create the plugin root and fixed subdirectories, derive the
class names, render every template, perform the writes in the fixed
source order, then run the two stub loops (which may throw the
`info.stubFile is not a function` TypeError at an inherited
Object.prototype member). -/
def performGeneration (opts : PluginOptions) (cwd : String) (fs : FileSystem) :
    Except String Unit × FileSystem :=
  let slug := resolveSlug opts
  let pluginDir := pluginDirOf opts cwd
  let normalizedOpts := normalizeOpts opts slug
  let fs1 := ensureDirFS fs pluginDir
  let fs2 := List.foldl (fun f sub => ensureDirFS f (pathJoin pluginDir sub)) fs1 subdirList
  let nspace := toNamespace slug
  let loaderClass := nspace ++ "_Loader"
  let pluginClass := nspace
  let adminClass := nspace ++ "_Admin"
  let publicClass := nspace ++ "_Public"
  let activatorClass := nspace ++ "_Activator"
  let deactivatorClass := nspace ++ "_Deactivator"
  let mainPhp := generateMainPluginFile normalizedOpts slug nspace pluginClass loaderClass
    adminClass publicClass activatorClass deactivatorClass
  let activatorPhp := generateActivationClass activatorClass
  let deactivatorPhp := generateDeactivationClass deactivatorClass
  let coreClassPhp := generateCoreClass pluginClass loaderClass adminClass publicClass nspace
    slug normalizedOpts
  let loaderPhp := generateLoaderClass loaderClass
  let adminPhp := generateAdminClass adminClass slug
  let publicPhp := generatePublicClass publicClass slug
  let readmeTxt := generateReadme normalizedOpts slug
  let fs3 := writeFileFS fs2 (pathJoin pluginDir (slug ++ ".php")) mainPhp
  let fs4 := writeFileFS fs3
    (pathJoin (pathJoin pluginDir ("includes")) ("class-" ++ slug ++ "-activator.php"))
    activatorPhp
  let fs5 := writeFileFS fs4
    (pathJoin (pathJoin pluginDir ("includes")) ("class-" ++ slug ++ "-deactivator.php"))
    deactivatorPhp
  let fs6 := writeFileFS fs5
    (pathJoin (pathJoin pluginDir ("includes")) ("class-" ++ slug ++ ".php")) coreClassPhp
  let fs7 := writeFileFS fs6
    (pathJoin (pathJoin pluginDir ("includes")) ("class-" ++ slug ++ "-loader.php")) loaderPhp
  let fs8 := writeFileFS fs7
    (pathJoin (pathJoin pluginDir ("admin")) ("class-" ++ slug ++ "-admin.php")) adminPhp
  let fs9 := writeFileFS fs8
    (pathJoin (pathJoin pluginDir ("public")) ("class-" ++ slug ++ "-public.php")) publicPhp
  let fs10 := writeFileFS fs9 (pathJoin pluginDir ("readme.txt")) readmeTxt
  let fs11 :=
    if normalizedOpts.withComposer then
      writeFileFS fs10 (pathJoin pluginDir ("composer.json"))
        (generateComposerJson normalizedOpts slug nspace)
    else fs10
  let fs12 := writeFileFS fs11
    (pathJoin (pathJoin (pathJoin pluginDir ("admin")) ("css")) (slug ++ "-admin.css")) ("")
  let fs13 := writeFileFS fs12
    (pathJoin (pathJoin (pathJoin pluginDir ("admin")) ("js")) (slug ++ "-admin.js")) ("")
  let fs14 := writeFileFS fs13
    (pathJoin (pathJoin (pathJoin pluginDir ("public")) ("css")) (slug ++ "-public.css")) ("")
  let fs15 := writeFileFS fs14
    (pathJoin (pathJoin (pathJoin pluginDir ("public")) ("js")) (slug ++ "-public.js")) ("")
  writeStubPhase slug pluginDir opts.settingsConfig opts.libraries opts.snippets fs15

/-- The destination-conflict error message thrown by `generatePlugin`. -/
def destNotEmptyMsg (pluginDir : String) : String :=
  "Directory \x27" ++ pluginDir ++ "\x27 already exists and is not empty."

/-- `generatePlugin` from src/renderer.js.  The result pairs the outcome
with the filesystem after the call: listing a non-empty destination
throws before any directory creation or write (the filesystem is returned
untouched); a missing (`none`, the ENOENT case) or empty destination
proceeds with the generation, whose stub loops may themselves throw. -/
def generatePlugin (opts : PluginOptions) (cwd : String) (fs : FileSystem) :
    Except String Unit × FileSystem :=
  let pluginDir := pluginDirOf opts cwd
  match readdirFS fs pluginDir with
  | some (_ :: _) => (Except.error (destNotEmptyMsg pluginDir), fs)
  | some [] => performGeneration opts cwd fs
  | none => performGeneration opts cwd fs

/-- The JS result object of the "generate-plugin" IPC handler:
`{ ok: true }` (with an optional pluginPath field, never set by the
source) or `{ ok: false, error }`. -/
inductive IpcResult where
  | ok (pluginPath : Option String)
  | err (error : String)
deriving DecidableEq

/-- The `ipcMain.handle('generate-plugin')` callback: await
`generatePlugin`, return `{ ok: true }` on success and
`{ ok: false, error: err.message }` on failure. -/
def handleGeneratePlugin (opts : PluginOptions) (cwd : String) (fs : FileSystem) : IpcResult :=
  match generatePlugin opts cwd fs with
  | (Except.ok _, _) => IpcResult.ok none
  | (Except.error e, _) => IpcResult.err e

/-- The branch field assembled by the renderer's form submit handler:
`document.getElementById('branch').value.trim() || 'main'`. -/
def formBranch (raw : String) : String :=
  if jsTrim raw = "" then "main" else jsTrim raw

/-- Look up the content of the file written at `p`, if any. -/
def fileContent? (fs : FileSystem) (p : String) : Option String :=
  (fs.files.filter (fun e => Prod.fst e = p)).head?.map Prod.snd

/-! ## Concrete inputs used by the claim instances -/

/-- The options record of the spec's concrete example: name "Demo",
output directory "/tmp/out", everything else absent. -/
def demoOpts : PluginOptions :=
  { name := "Demo", slug := "", description := "", version := "", author := "", authorUri := "",
    pluginUri := "", requiresAtLeast := "", testedUpTo := "", requiresPhp := "", repo := "",
    branch := "", withComposer := false, outputDir := "/tmp/out", libraries := [],
    snippets := [], settingsConfig := none }

/-- A name made only of non-alphanumeric characters. -/
def bangOpts : PluginOptions := { demoOpts with name := "!!!" }

/-- Demo options with a repo URL set and a blank branch. -/
def branchOpts : PluginOptions :=
  { demoOpts with repo := "https://github.com/acme/demo", branch := "" }

/-- Demo options selecting the out-of-catalog library identifier
"loader", which collides with the fixed loader include file. -/
def loaderOpts : PluginOptions := { demoOpts with libraries := ["loader"] }

/-- A filesystem on which the destination "/tmp/out/demo" already exists
and contains one file. -/
def conflictFS : FileSystem :=
  { files := [("/tmp/out/demo/x.txt", "hi")], dirs := ["/tmp/out/demo"] }

/-- The include-file path referenced by the core class require line for
identifier `id` (under the includes/ directory of the plugin root). -/
def reqTarget (opts : PluginOptions) (cwd : String) (id : String) : String :=
  pathJoin (pathJoin (pluginDirOf opts cwd) ("includes"))
    ("class-" ++ resolveSlug opts ++ "-" ++ id ++ ".php")

/-- Demo options selecting an identifier absent from every catalog. -/
def unknownOpts : PluginOptions := { demoOpts with libraries := ["zzz"] }

/-- Demo options selecting the Object.prototype member name "toString"
as a library identifier: the object-literal lookup yields the inherited
method, which is truthy, and the stub loop throws. -/
def protoOpts : PluginOptions := { demoOpts with libraries := ["toString"] }

/-- The options with every identifier absent from both the catalogs and
Object.prototype removed from the selected lists (the identifiers the
`if (info)` guards silently skip). -/
def filterCatalogOpts (opts : PluginOptions) : PluginOptions :=
  { opts with libraries := opts.libraries.filter libraryKept, snippets := opts.snippets.filter snippetKept }

/-! ## Helper lemmas: strings and lists -/

/-- Two strings with the same character list are equal. -/
theorem strEqOfData {s t : String} (h : s.data = t.data) : s = t := by
  cases s; cases t; exact congrArg String.mk h

/-- A string is empty exactly when its character list is. -/
theorem strEmptyIffData (s : String) : s = "" ↔ s.data = [] := by
  constructor
  · intro h; rw [h]
  · intro h; exact strEqOfData h

/-! ## Helper lemmas: slugify -/

/-- Every character produced by the run-replacement pass is either kept
from the alphanumeric class or is the replacement dash. -/
theorem mem_replRuns {c : Char} :
    ∀ (l : List Char) (b : Bool), c ∈ replRuns l b → isSlugChar c = true ∨ c = '-' := by
  intro l
  induction l with
  | nil => intro b h; simp [replRuns] at h
  | cons a rest ih =>
    intro b h
    by_cases ha : isSlugChar a = true
    · rw [replRuns, if_pos ha] at h
      rcases List.mem_cons.mp h with h1 | h2
      · exact Or.inl (h1 ▸ ha)
      · exact ih false h2
    · rw [replRuns, if_neg ha] at h
      by_cases hb : b = true
      · rw [if_pos hb] at h
        exact ih true h
      · rw [if_neg hb] at h
        rcases List.mem_cons.mp h with h1 | h2
        · exact Or.inr h1
        · exact ih true h2

/-- Dropping leading dashes only removes elements. -/
theorem mem_dropLeadingDashes {c : Char} : ∀ l, c ∈ dropLeadingDashes l → c ∈ l := by
  intro l
  induction l with
  | nil => intro h; simp [dropLeadingDashes] at h
  | cons a rest ih =>
    intro h
    by_cases ha : a = '-'
    · rw [dropLeadingDashes, if_pos ha] at h
      exact List.mem_cons_of_mem a (ih h)
    · rw [dropLeadingDashes, if_neg ha] at h
      exact h

/-- After dropping leading dashes the head is not a dash. -/
theorem head?_dropLeadingDashes : ∀ l, (dropLeadingDashes l).head? ≠ some '-' := by
  intro l
  induction l with
  | nil => simp [dropLeadingDashes]
  | cons a rest ih =>
    by_cases ha : a = '-'
    · rw [dropLeadingDashes, if_pos ha]; exact ih
    · rw [dropLeadingDashes, if_neg ha]
      simp only [List.head?_cons, ne_eq, Option.some.injEq]
      exact ha

/-- `dropLeadingDashes` returns a suffix of its input. -/
theorem exists_prefix_dropLeadingDashes : ∀ l : List Char, ∃ t, l = t ++ dropLeadingDashes l := by
  intro l
  induction l with
  | nil => exact ⟨[], rfl⟩
  | cons a rest ih =>
    by_cases ha : a = '-'
    · obtain ⟨t, ht⟩ := ih
      refine ⟨a :: t, ?_⟩
      rw [dropLeadingDashes, if_pos ha, List.cons_append, ← ht]
    · exact ⟨[], by rw [dropLeadingDashes, if_neg ha]; rfl⟩

/-- The head of a nonempty left part survives an append. -/
theorem head?_append_left {α : Type} (a b : List α) (h : a ≠ []) :
    (a ++ b).head? = a.head? := by
  cases a
  · exact absurd rfl h
  · rfl

/-- The trimmed slug list does not start with a dash. -/
theorem head?_trimDashes (l : List Char) : (trimDashes l).head? ≠ some '-' := by
  unfold trimDashes
  obtain ⟨t, ht⟩ := exists_prefix_dropLeadingDashes (dropLeadingDashes l).reverse
  have hm : dropLeadingDashes l =
      (dropLeadingDashes (dropLeadingDashes l).reverse).reverse ++ t.reverse := by
    have := congrArg List.reverse ht
    rw [List.reverse_reverse, List.reverse_append] at this
    exact this
  rcases hx : (dropLeadingDashes (dropLeadingDashes l).reverse).reverse with _ | ⟨c, cs⟩
  · simp
  · have h1 : (dropLeadingDashes l).head? = some c := by
      rw [hm, hx, head?_append_left _ _ (by simp)]
      rfl
    have h2 := head?_dropLeadingDashes l
    intro hcontra
    apply h2
    rw [h1]
    simpa using hcontra

/-- The trimmed slug list does not end with a dash. -/
theorem getLast?_trimDashes (l : List Char) : (trimDashes l).getLast? ≠ some '-' := by
  unfold trimDashes
  rw [List.getLast?_reverse]
  exact head?_dropLeadingDashes _

/-- Trimming dashes only removes elements. -/
theorem mem_trimDashes {c : Char} (l : List Char) (h : c ∈ trimDashes l) : c ∈ l := by
  unfold trimDashes at h
  rw [List.mem_reverse] at h
  have h1 := mem_dropLeadingDashes _ h
  rw [List.mem_reverse] at h1
  exact mem_dropLeadingDashes _ h1

/-- Claim C9: `slugify` lowercases, replaces every maximal run of
characters outside `[a-z0-9]` by one hyphen and strips edge hyphens, so
its output consists only of lowercase alphanumerics and hyphens, never
starts or ends with a hyphen, is empty on empty input, and maps
"My Cool Plugin!" to "my-cool-plugin". -/
theorem claim9_slugify (s : String) :
    (∀ c ∈ (slugify s).data, isSlugChar c = true ∨ c = '-')
    ∧ (slugify s).data.head? ≠ some '-'
    ∧ (slugify s).data.getLast? ≠ some '-'
    ∧ slugify ("") = ""
    ∧ slugify ("My Cool Plugin!") = "my-cool-plugin" := by
  refine ⟨?_, ?_, ?_, by decide, by decide⟩
  · intro c hc
    have h1 : c ∈ trimDashes (replRuns (strToLower s).data false) := hc
    exact mem_replRuns _ false (mem_trimDashes _ h1)
  · exact head?_trimDashes _
  · exact getLast?_trimDashes _

/-- Witness for C9 at the spec's concrete example. -/
theorem claim9_witness : slugify ("My Cool Plugin!") = "my-cool-plugin" :=
  (claim9_slugify ("My Cool Plugin!")).2.2.2.2

/-- `capFirst` agrees with uppercasing only non-empty segments. -/
theorem map_capFirst_eq (l : List String) :
    l.map capFirst = l.map (fun seg => if seg = "" then "" else capFirst seg) := by
  induction l with
  | nil => rfl
  | cons s rest ih =>
    simp only [List.map_cons, ih]
    by_cases hs : s = ""
    · subst hs; rfl
    · rw [if_neg hs]

/-- Claim C10: `toNamespace` splits on hyphens, uppercases the first
letter of each non-empty segment and concatenates all segments; it is
total, the empty slug yields the empty token, and
`toNamespace "my-cool-plugin" = "MyCoolPlugin"`. -/
theorem claim10_toNamespace (slug : String) :
    toNamespace slug =
      strJoin ((splitOnDash slug).map (fun seg => if seg = "" then "" else capFirst seg))
    ∧ toNamespace ("") = ""
    ∧ toNamespace ("my-cool-plugin") = "MyCoolPlugin" := by
  refine ⟨?_, by decide, by decide⟩
  rw [toNamespace, map_capFirst_eq]

/-- Witness for C10 at the spec's concrete example. -/
theorem claim10_witness : toNamespace ("my-cool-plugin") = "MyCoolPlugin" :=
  (claim10_toNamespace ("my-cool-plugin")).2.2

/-! ## Helper lemmas: the PHP string escaper -/

/-- `replacePass` distributes over append. -/
theorem replacePass_append (t : Char) (r : List Char) :
    ∀ a b : List Char, replacePass t r (a ++ b) = replacePass t r a ++ replacePass t r b := by
  intro a b
  induction a with
  | nil => rfl
  | cons c rest ih =>
    simp only [List.cons_append, replacePass, List.append_assoc, List.append_eq]
    rw [ih]

/-- The two sequential replacement passes of `escapePhpString` compute the
single-pass escape: first doubling every backslash, then prefixing every
single quote with a backslash. -/
theorem escape_two_pass :
    ∀ l : List Char,
      replacePass quoteChar [backslashChar, quoteChar]
        (replacePass backslashChar [backslashChar, backslashChar] l) = escList l := by
  intro l
  induction l with
  | nil => rfl
  | cons c rest ih =>
    simp only [replacePass, replacePass_append, escList]
    by_cases hb : c = backslashChar
    · subst hb
      rw [if_pos rfl]
      have h1 : replacePass quoteChar [backslashChar, quoteChar]
          [backslashChar, backslashChar] = [backslashChar, backslashChar] := by decide
      rw [h1, ih, escapePhpSpecChar, if_pos rfl]
    · rw [if_neg hb]
      by_cases hq : c = quoteChar
      · subst hq
        have h1 : replacePass quoteChar [backslashChar, quoteChar] [quoteChar] =
            [backslashChar, quoteChar] := by decide
        rw [h1, ih, escapePhpSpecChar, if_neg (by decide), if_pos rfl]
      · have h1 : replacePass quoteChar [backslashChar, quoteChar] [c] = [c] := by
          simp [replacePass, hq]
        rw [h1, ih, escapePhpSpecChar, if_neg hb, if_neg hq]

/-- The escaper of the settings snippet equals the single-pass escape the
spec describes, on every string. -/
theorem escapePhpString_eq_spec (s : String) : escapePhpString s = escapePhpSpec s := by
  by_cases h : s = ""
  · subst h; rfl
  · rw [escapePhpString, if_neg h, escapePhpSpec, escape_two_pass]

/-- Claim C6: the settings snippet renderer escapes interpolated values by
doubling backslashes then backslash-prefixing single quotes (equivalently
the single-pass escape), normalizes the format to lowercase alphanumerics
with fallback "json", and uses the documented defaults for absent fields
(menuSlug defaulting to `<slug>-settings`, concretely "demo-settings"). -/
theorem claim6_settings (slug : String) (cfg : SettingsConfig) (s : String) :
    escapePhpString s = escapePhpSpec s
    ∧ (∀ c ∈ (settingsNormalizedFormat cfg).data, isSlugChar c = true)
    ∧ settingsNormalizedFormat cfg ≠ ""
    ∧ settingsNormalizedFormat { cfg with format := "" } = "json"
    ∧ settingsResolvedPageTitle { cfg with pageTitle := "" } = "Plugin Settings"
    ∧ settingsResolvedMenuSlug slug { cfg with menuSlug := "" } =
        escapePhpString (slug ++ "-settings")
    ∧ settingsResolvedMenuSlug ("demo") { cfg with menuSlug := "" } = "demo-settings"
    ∧ settingsResolvedCapability { cfg with capability := "" } = "manage_options"
    ∧ settingsResolvedParentMenu { cfg with parentMenu := "" } = "options-general.php" := by
  refine ⟨escapePhpString_eq_spec s, ?_, ?_, rfl, rfl, rfl, rfl, rfl, rfl⟩
  · intro c hc
    rw [settingsNormalizedFormat] at hc
    by_cases h : settingsStrippedFormat cfg = ""
    · rw [if_pos h] at hc
      fin_cases hc <;> decide
    · rw [if_neg h] at hc
      exact (List.mem_filter.mp hc).2
  · rw [settingsNormalizedFormat]
    by_cases h : settingsStrippedFormat cfg = ""
    · rw [if_pos h]; decide
    · rw [if_neg h]; exact h

/-- Witness for C6 at slug "demo" with the empty configuration. -/
theorem claim6_witness :
    settingsNormalizedFormat { SettingsConfig.empty with format := "" } = "json" :=
  (claim6_settings ("demo") SettingsConfig.empty ("")).2.2.2.1

/-! ## Claim C3: the destination pre-check -/

/-- Claim C3: `generatePlugin` computes the plugin root as
outputDirectory/slug and lists it before any write: a non-empty listing
aborts with the "already exists and is not empty" error and leaves the
filesystem untouched; a missing directory (ENOENT) or an empty listing
proceeds with generation. -/
theorem claim3_destination_check (opts : PluginOptions) (cwd : String) (fs : FileSystem) :
    pluginDirOf opts cwd = pathJoin (resolveOutputDir opts cwd) (resolveSlug opts)
    ∧ (∀ e es, readdirFS fs (pluginDirOf opts cwd) = some (e :: es) →
        generatePlugin opts cwd fs =
          (Except.error (destNotEmptyMsg (pluginDirOf opts cwd)), fs))
    ∧ (readdirFS fs (pluginDirOf opts cwd) = none →
        generatePlugin opts cwd fs = performGeneration opts cwd fs)
    ∧ (readdirFS fs (pluginDirOf opts cwd) = some [] →
        generatePlugin opts cwd fs = performGeneration opts cwd fs) := by
  refine ⟨rfl, ?_, ?_, ?_⟩
  · intro e es h
    simp only [generatePlugin, h]
  · intro h
    simp only [generatePlugin, h]
  · intro h
    simp only [generatePlugin, h]

/-- Witness for C3: a second generation aimed at the populated
destination "/tmp/out/demo" fails with the conflict message and performs
zero writes. -/
theorem claim3_witness :
    generatePlugin demoOpts ("/cwd") conflictFS =
      (Except.error (destNotEmptyMsg (pluginDirOf demoOpts ("/cwd"))), conflictFS) :=
  (claim3_destination_check demoOpts ("/cwd") conflictFS).2.1 ("/tmp/out/demo/x.txt") []
    (by decide)

/-! ## Claim C1: the shape of the IPC result -/

/-- Counterexample to C1: on the success path the handler returns
`{ ok: true }` with no pluginPath field, not `{ ok: true, pluginPath }`. -/
theorem claim1_counterexample :
    (generatePlugin demoOpts ("/cwd") emptyFS).1.isOk = true
    ∧ handleGeneratePlugin demoOpts ("/cwd") emptyFS = IpcResult.ok none
    ∧ IpcResult.ok (none : Option String) ≠ IpcResult.ok (some ("/tmp/out/demo")) := by
  refine ⟨by decide, by decide, by decide⟩

/-- C1 as amended: the handler result never carries a pluginPath; success
maps to `{ ok: true }` and failure maps to `{ ok: false, error }` with the
error message raised by `generatePlugin`. -/
theorem claim1_amended (opts : PluginOptions) (cwd : String) (fs : FileSystem) :
    (∀ p : String, handleGeneratePlugin opts cwd fs ≠ IpcResult.ok (some p))
    ∧ ((generatePlugin opts cwd fs).1.isOk = true →
        handleGeneratePlugin opts cwd fs = IpcResult.ok none)
    ∧ (∀ e, (generatePlugin opts cwd fs).1 = Except.error e →
        handleGeneratePlugin opts cwd fs = IpcResult.err e) := by
  rcases hg : generatePlugin opts cwd fs with ⟨r, f⟩
  cases r with
  | ok u =>
    refine ⟨?_, ?_, ?_⟩
    · intro p
      simp [handleGeneratePlugin, hg]
    · intro _
      simp [handleGeneratePlugin, hg]
    · intro e he
      simp at he
  | error e =>
    refine ⟨?_, ?_, ?_⟩
    · intro p
      simp [handleGeneratePlugin, hg]
    · intro h
      simp [Except.isOk, Except.toBool] at h
    · intro e' he
      simp at he
      subst he
      simp [handleGeneratePlugin, hg]

/-- Witness for C1 (amended) at the demo options on the empty filesystem. -/
theorem claim1_witness :
    handleGeneratePlugin demoOpts ("/cwd") emptyFS = IpcResult.ok none :=
  (claim1_amended demoOpts ("/cwd") emptyFS).2.1 (by decide)

/-! ## Claim C2: (absence of) validation in generatePlugin -/

/-- Counterexample to C2: with name "!!!" the resolved slug is empty, yet
`generatePlugin` raises no validation error: it succeeds, the plugin root
degenerates to the output directory itself, and files (the entry file
".php" among them) are written directly into it. -/
theorem claim2_counterexample :
    resolveSlug bangOpts = ""
    ∧ (generatePlugin bangOpts ("/cwd") emptyFS).1.isOk = true
    ∧ pluginDirOf bangOpts ("/cwd") = "/tmp/out"
    ∧ ("/tmp/out/.php") ∈ ((generatePlugin bangOpts ("/cwd") emptyFS).2.files.map Prod.fst) := by
  refine ⟨by decide, by decide, by decide, by decide⟩

/-- C2 as amended: `generatePlugin` validates nothing.  When the resolved
slug is empty the plugin root equals the output directory and generation
proceeds past the destination-emptiness pre-check into the generation
phase, and an empty outputDir falls back to the process working directory
instead of failing. -/
theorem claim2_amended (opts : PluginOptions) (cwd : String) (fs : FileSystem)
    (hslug : resolveSlug opts = "") (hout : opts.outputDir ≠ "")
    (hdest : readdirFS fs (pluginDirOf opts cwd) = none ∨
      readdirFS fs (pluginDirOf opts cwd) = some []) :
    pluginDirOf opts cwd = opts.outputDir
    ∧ generatePlugin opts cwd fs = performGeneration opts cwd fs
    ∧ resolveOutputDir { opts with outputDir := "" } cwd = cwd := by
  refine ⟨?_, ?_, by simp [resolveOutputDir]⟩
  · rw [pluginDirOf, hslug, resolveOutputDir, if_neg hout, pathJoin, if_neg hout, if_pos rfl]
  · rcases hdest with h | h <;> simp only [generatePlugin, h]

/-- Witness for C2 (amended) at the "!!!" options on the empty filesystem. -/
theorem claim2_witness :
    pluginDirOf bangOpts ("/cwd") = bangOpts.outputDir
    ∧ generatePlugin bangOpts ("/cwd") emptyFS = performGeneration bangOpts ("/cwd") emptyFS := by
  have h := claim2_amended bangOpts ("/cwd") emptyFS (by decide) (by decide)
    (Or.inl (by decide))
  exact ⟨h.1, h.2.1⟩

/-! ## Claim C4: which defaults generatePlugin applies -/

/-- Counterexample to C4: for options accepted by `generatePlugin` with a
blank branch and a repo URL, the normalized record still carries the blank
branch and the rendered main plugin file contains `setBranch('')` — the
"main" fallback is not applied by `generate` before rendering. -/
theorem claim4_counterexample :
    (normalizeOpts branchOpts (resolveSlug branchOpts)).branch = ""
    ∧ strContainsSub ("setBranch(\x27\x27)")
        (generateMainPluginFile (normalizeOpts branchOpts ("demo")) ("demo") ("Demo") ("Demo")
          ("Demo_Loader") ("Demo_Admin") ("Demo_Public") ("Demo_Activator")
          ("Demo_Deactivator")) = true
    ∧ ("" : String) ≠ "main" := by
  refine ⟨by decide, by decide, by decide⟩

/-- C4 as amended: `generatePlugin` applies the author, authorUri and
pluginUri fallbacks (blank meaning empty or whitespace-only) before any
template is rendered, and passes branch through unchanged; the "main"
fallback for a blank branch is applied earlier, by the renderer's form
submit handler. -/
theorem claim4_amended (opts : PluginOptions) (slug raw : String) :
    ((normalizeOpts opts slug).author =
      if jsTrim opts.author = "" then defaultAuthor else opts.author)
    ∧ ((normalizeOpts opts slug).authorUri =
      if jsTrim opts.authorUri = "" then defaultAuthorUri else opts.authorUri)
    ∧ ((normalizeOpts opts slug).pluginUri =
      if jsTrim opts.pluginUri = "" then pluginBaseUri ++ slug ++ "/" else opts.pluginUri)
    ∧ (normalizeOpts opts slug).branch = opts.branch
    ∧ formBranch ("") = "main"
    ∧ formBranch raw = (if jsTrim raw = "" then "main" else jsTrim raw) := by
  have blank : ∀ s : String, jsTrim s ≠ "" → s ≠ "" := by
    intro s h he
    exact h (by rw [he]; rfl)
  refine ⟨?_, ?_, ?_, rfl, rfl, rfl⟩
  · by_cases h : jsTrim opts.author = ""
    · simp [normalizeOpts, h]
    · simp [normalizeOpts, h, blank _ h]
  · by_cases h : jsTrim opts.authorUri = ""
    · simp [normalizeOpts, h]
    · simp [normalizeOpts, h, blank _ h]
  · by_cases h : jsTrim opts.pluginUri = ""
    · simp [normalizeOpts, h]
    · simp [normalizeOpts, h, blank _ h]

/-- Witness for C4 (amended) at the demo options. -/
theorem claim4_witness :
    (normalizeOpts demoOpts ("demo")).author =
      if jsTrim demoOpts.author = "" then defaultAuthor else demoOpts.author :=
  (claim4_amended demoOpts ("demo") ("")).1

/-! ## Claim C5: the demo generation's exact output -/

/-- Counterexample to C5's return clause: the demo generation succeeds but
the IPC result carries no pluginPath "/tmp/out/demo". -/
theorem claim5_counterexample :
    (generatePlugin demoOpts ("/cwd") emptyFS).1.isOk = true
    ∧ handleGeneratePlugin demoOpts ("/cwd") emptyFS ≠ IpcResult.ok (some ("/tmp/out/demo")) := by
  refine ⟨by decide, by decide⟩

/-- C5 as amended: the demo call succeeds, writes exactly the 8 fixed
files plus the 4 empty stub files under /tmp/out/demo (and nothing else,
composer.json in particular absent), creates exactly the fixed directory
layout, and the plugin root path is /tmp/out/demo; the IPC result is
`{ ok: true }` without a pluginPath field. -/
theorem claim5_amended :
    pluginDirOf demoOpts ("/cwd") = "/tmp/out/demo"
    ∧ (generatePlugin demoOpts ("/cwd") emptyFS).1 = Except.ok ()
    ∧ ((generatePlugin demoOpts ("/cwd") emptyFS).2.files.map Prod.fst) =
      ["/tmp/out/demo/demo.php",
       "/tmp/out/demo/includes/class-demo-activator.php",
       "/tmp/out/demo/includes/class-demo-deactivator.php",
       "/tmp/out/demo/includes/class-demo.php",
       "/tmp/out/demo/includes/class-demo-loader.php",
       "/tmp/out/demo/admin/class-demo-admin.php",
       "/tmp/out/demo/public/class-demo-public.php",
       "/tmp/out/demo/readme.txt",
       "/tmp/out/demo/admin/css/demo-admin.css",
       "/tmp/out/demo/admin/js/demo-admin.js",
       "/tmp/out/demo/public/css/demo-public.css",
       "/tmp/out/demo/public/js/demo-public.js"]
    ∧ ((generatePlugin demoOpts ("/cwd") emptyFS).2.dirs) =
      ["/tmp/out/demo", "/tmp/out/demo/includes", "/tmp/out/demo/admin",
       "/tmp/out/demo/admin/css", "/tmp/out/demo/admin/js", "/tmp/out/demo/public",
       "/tmp/out/demo/public/css", "/tmp/out/demo/public/js", "/tmp/out/demo/languages"]
    ∧ fileContent? (generatePlugin demoOpts ("/cwd") emptyFS).2
        ("/tmp/out/demo/admin/css/demo-admin.css") = some ("")
    ∧ fileContent? (generatePlugin demoOpts ("/cwd") emptyFS).2
        ("/tmp/out/demo/admin/js/demo-admin.js") = some ("")
    ∧ fileContent? (generatePlugin demoOpts ("/cwd") emptyFS).2
        ("/tmp/out/demo/public/css/demo-public.css") = some ("")
    ∧ fileContent? (generatePlugin demoOpts ("/cwd") emptyFS).2
        ("/tmp/out/demo/public/js/demo-public.js") = some ("")
    ∧ ("/tmp/out/demo/composer.json") ∉
        ((generatePlugin demoOpts ("/cwd") emptyFS).2.files.map Prod.fst)
    ∧ handleGeneratePlugin demoOpts ("/cwd") emptyFS = IpcResult.ok none := by
  refine ⟨by decide, by rfl, by decide, by decide, by decide, by decide, by decide,
    by decide, by decide, by decide⟩

/-! ## Claim C7: the fate of non-catalog identifiers -/

/-- The library stub loop behaves exactly as on the list with the absent
(undefined-lookup) identifiers removed: they are skipped by the
`if (info)` guard.  Inherited Object.prototype members are NOT removed by
this filter — both sides throw at them alike. -/
theorem writeLibraryStubs_filter (slug pd : String) :
    ∀ (libs : List String) (fs : FileSystem),
      writeLibraryStubs slug pd libs fs =
        writeLibraryStubs slug pd (libs.filter libraryKept) fs := by
  intro libs
  induction libs with
  | nil => intro fs; rfl
  | cons l rest ih =>
    intro fs
    cases hA : AVAILABLE_LIBRARIES l with
    | own info =>
      have hk : libraryKept l = true := by simp [libraryKept, libraryAbsent, hA]
      rw [writeLibraryStubs, hA, List.filter_cons_of_pos hk, writeLibraryStubs, hA]
      exact ih _
    | inherited =>
      have hk : libraryKept l = true := by simp [libraryKept, libraryAbsent, hA]
      rw [writeLibraryStubs, hA, List.filter_cons_of_pos hk, writeLibraryStubs, hA]
    | absent =>
      have hk : ¬(libraryKept l = true) := by simp [libraryKept, libraryAbsent, hA]
      rw [writeLibraryStubs, hA, List.filter_cons_of_neg hk]
      exact ih fs

/-- The snippet stub loop behaves exactly as on the list with the absent
identifiers removed. -/
theorem writeSnippetStubs_filter (slug pd : String) (cfg : Option SettingsConfig) :
    ∀ (snips : List String) (fs : FileSystem),
      writeSnippetStubs slug pd cfg snips fs =
        writeSnippetStubs slug pd cfg (snips.filter snippetKept) fs := by
  intro snips
  induction snips with
  | nil => intro fs; rfl
  | cons sn rest ih =>
    intro fs
    cases hA : AVAILABLE_SNIPPETS sn with
    | own info =>
      have hk : snippetKept sn = true := by simp [snippetKept, snippetAbsent, hA]
      rw [writeSnippetStubs, hA, List.filter_cons_of_pos hk, writeSnippetStubs, hA]
      exact ih _
    | inherited =>
      have hk : snippetKept sn = true := by simp [snippetKept, snippetAbsent, hA]
      rw [writeSnippetStubs, hA, List.filter_cons_of_pos hk, writeSnippetStubs, hA]
    | absent =>
      have hk : ¬(snippetKept sn = true) := by simp [snippetKept, snippetAbsent, hA]
      rw [writeSnippetStubs, hA, List.filter_cons_of_neg hk]
      exact ih fs

/-- The outcome (success or thrown message) of the library stub loop does
not depend on the starting filesystem. -/
theorem writeLibraryStubs_fst (slug pd : String) :
    ∀ (libs : List String) (fs g : FileSystem),
      (writeLibraryStubs slug pd libs fs).1 = (writeLibraryStubs slug pd libs g).1 := by
  intro libs
  induction libs with
  | nil => intro fs g; rfl
  | cons l rest ih =>
    intro fs g
    cases hA : AVAILABLE_LIBRARIES l with
    | own info =>
      rw [writeLibraryStubs, hA, writeLibraryStubs, hA]
      exact ih _ _
    | inherited => rw [writeLibraryStubs, hA, writeLibraryStubs, hA]
    | absent =>
      rw [writeLibraryStubs, hA, writeLibraryStubs, hA]
      exact ih fs g

/-- The outcome of the snippet stub loop does not depend on the starting
filesystem. -/
theorem writeSnippetStubs_fst (slug pd : String) (cfg : Option SettingsConfig) :
    ∀ (snips : List String) (fs g : FileSystem),
      (writeSnippetStubs slug pd cfg snips fs).1 =
        (writeSnippetStubs slug pd cfg snips g).1 := by
  intro snips
  induction snips with
  | nil => intro fs g; rfl
  | cons sn rest ih =>
    intro fs g
    cases hA : AVAILABLE_SNIPPETS sn with
    | own info =>
      rw [writeSnippetStubs, hA, writeSnippetStubs, hA]
      exact ih _ _
    | inherited => rw [writeSnippetStubs, hA, writeSnippetStubs, hA]
    | absent =>
      rw [writeSnippetStubs, hA, writeSnippetStubs, hA]
      exact ih fs g

/-- The outcome of the whole stub phase does not depend on the starting
filesystem. -/
theorem writeStubPhase_fst (slug pd : String) (cfg : Option SettingsConfig)
    (libs snips : List String) (fs g : FileSystem) :
    (writeStubPhase slug pd cfg libs snips fs).1 =
      (writeStubPhase slug pd cfg libs snips g).1 := by
  have hL := writeLibraryStubs_fst slug pd libs fs g
  rcases h1 : writeLibraryStubs slug pd libs fs with ⟨r1, f1⟩
  rcases h2 : writeLibraryStubs slug pd libs g with ⟨r2, f2⟩
  rw [h1, h2] at hL
  have hr : r1 = r2 := hL
  subst hr
  unfold writeStubPhase
  rw [h1, h2]
  cases r1 with
  | ok u => exact writeSnippetStubs_fst slug pd cfg snips f1 f2
  | error e => rfl

/-- The stub phase behaves exactly as on the absent-filtered identifier
lists. -/
theorem writeStubPhase_filter (slug pd : String) (cfg : Option SettingsConfig)
    (libs snips : List String) (fs : FileSystem) :
    writeStubPhase slug pd cfg libs snips fs =
      writeStubPhase slug pd cfg (libs.filter libraryKept)
        (snips.filter snippetKept) fs := by
  unfold writeStubPhase
  rw [← writeLibraryStubs_filter]
  rcases h1 : writeLibraryStubs slug pd libs fs with ⟨r1, f1⟩
  cases r1 with
  | ok u => exact writeSnippetStubs_filter slug pd cfg snips f1
  | error e => rfl

/-- The outcome of the generation phase is unchanged by removing the
absent identifiers from both lists. -/
theorem performGeneration_fst_filter (opts : PluginOptions) (cwd : String) (fs : FileSystem) :
    (performGeneration opts cwd fs).1 =
      (performGeneration (filterCatalogOpts opts) cwd fs).1 := by
  simp only [performGeneration]
  rw [writeStubPhase_filter]
  exact writeStubPhase_fst _ _ _ _ _ _ _

/-- Counterexample to C7: the Object.prototype member name "toString" is
in neither catalog, yet selecting it as a library does NOT leave it
ignored: the object-literal lookup yields the inherited (truthy) method,
`info.stubFile(slug)` throws `info.stubFile is not a function`, and the
otherwise-identical demo generation that succeeds now fails. -/
theorem claim7_counterexample :
    isKnownLibrary ("toString") = false
    ∧ isKnownSnippet ("toString") = false
    ∧ ("toString") ∈ protoOpts.libraries
    ∧ (generatePlugin protoOpts ("/cwd") emptyFS).1 = Except.error stubNotFunctionMsg
    ∧ (generatePlugin demoOpts ("/cwd") emptyFS).1 = Except.ok () := by
  refine ⟨by decide, by decide, by decide, by rfl, by rfl⟩

/-- C7 as amended: identifiers whose lookup is `undefined` — absent from
the catalogs AND not Object.prototype member names — are silently skipped
(each stub loop equals itself on the absent-filtered list, and the whole
generate outcome is unchanged by removing them), while an identifier that
names an inherited Object.prototype member makes the stub loop, and hence
generate, throw `info.stubFile is not a function`. -/
theorem claim7_amended (opts : PluginOptions) (cwd : String) (fs : FileSystem)
    (slug pd : String) (libs snips : List String) (cfg : Option SettingsConfig)
    (fs2 : FileSystem) :
    writeLibraryStubs slug pd libs fs2 =
        writeLibraryStubs slug pd (libs.filter libraryKept) fs2
    ∧ writeSnippetStubs slug pd cfg snips fs2 =
        writeSnippetStubs slug pd cfg (snips.filter snippetKept) fs2
    ∧ (∀ lib, AVAILABLE_LIBRARIES lib = JsProp.inherited →
        ∀ rest g, writeLibraryStubs slug pd (lib :: rest) g =
          (Except.error stubNotFunctionMsg, g))
    ∧ (∀ sn, AVAILABLE_SNIPPETS sn = JsProp.inherited →
        ∀ rest g, writeSnippetStubs slug pd cfg (sn :: rest) g =
          (Except.error stubNotFunctionMsg, g))
    ∧ (generatePlugin opts cwd fs).1 = (generatePlugin (filterCatalogOpts opts) cwd fs).1 := by
  refine ⟨writeLibraryStubs_filter slug pd libs fs2,
    writeSnippetStubs_filter slug pd cfg snips fs2, ?_, ?_, ?_⟩
  · intro lib hA rest g
    rw [writeLibraryStubs, hA]
  · intro sn hA rest g
    rw [writeSnippetStubs, hA]
  · have hpd : pluginDirOf (filterCatalogOpts opts) cwd = pluginDirOf opts cwd := rfl
    simp only [generatePlugin, hpd]
    rcases h : readdirFS fs (pluginDirOf opts cwd) with _ | entries
    · exact performGeneration_fst_filter opts cwd fs
    · cases entries with
      | nil => exact performGeneration_fst_filter opts cwd fs
      | cons e es => rfl

/-- Witness for C7 (amended): the inherited member "toString" at the head
of the library list makes the stub loop throw the TypeError message. -/
theorem claim7_witness :
    writeLibraryStubs ("demo") ("/tmp/out/demo") (["toString"]) emptyFS =
      (Except.error stubNotFunctionMsg, emptyFS) :=
  (claim7_amended demoOpts ("/cwd") emptyFS ("demo") ("/tmp/out/demo") [] [] none
    emptyFS).2.2.1 ("toString") (by rfl) [] emptyFS

/-! ## Helper lemmas: substring search -/

/-- A list starts with itself followed by anything. -/
theorem lsw_refl_append : ∀ (n rest : List Char), listStartsWith n (n ++ rest) = true := by
  intro n
  induction n with
  | nil => intro rest; rfl
  | cons a as ih =>
    intro rest
    simp only [List.cons_append, listStartsWith, Bool.and_eq_true]
    exact ⟨by simp, ih rest⟩

/-- A prefix of `h` is a prefix of `h ++ b`. -/
theorem lsw_extend : ∀ (n h b : List Char), listStartsWith n h = true →
    listStartsWith n (h ++ b) = true := by
  intro n
  induction n with
  | nil => intro h b _; rfl
  | cons a as ih =>
    intro h b hs
    cases h with
    | nil => simp [listStartsWith] at hs
    | cons c t =>
      simp only [listStartsWith, Bool.and_eq_true] at hs
      simp only [List.cons_append, listStartsWith, Bool.and_eq_true]
      exact ⟨hs.1, ih t b hs.2⟩

/-- The empty needle occurs in every haystack. -/
theorem lcs_nil : ∀ h : List Char, listContainsSeq [] h = true := by
  intro h
  cases h with
  | nil => rfl
  | cons c t => simp [listContainsSeq, listStartsWith]

/-- A prefix occurrence is an occurrence. -/
theorem lcs_of_lsw (n : List Char) : ∀ h, listStartsWith n h = true →
    listContainsSeq n h = true := by
  intro h hs
  cases h with
  | nil => exact hs
  | cons c t => simp [listContainsSeq, hs]

/-- An occurrence survives prepending text. -/
theorem lcs_append_left (n : List Char) : ∀ (a h : List Char),
    listContainsSeq n h = true → listContainsSeq n (a ++ h) = true := by
  intro a
  induction a with
  | nil => intro h hh; exact hh
  | cons c t ih =>
    intro h hh
    simp only [List.cons_append, listContainsSeq, Bool.or_eq_true]
    exact Or.inr (ih h hh)

/-- An occurrence survives appending text. -/
theorem lcs_append_right (n : List Char) : ∀ (h b : List Char),
    listContainsSeq n h = true → listContainsSeq n (h ++ b) = true := by
  intro h
  induction h with
  | nil =>
    intro b hh
    cases n with
    | nil => exact lcs_nil b
    | cons c t => simp [listContainsSeq, listStartsWith] at hh
  | cons c t ih =>
    intro b hh
    simp only [listContainsSeq, Bool.or_eq_true] at hh
    simp only [List.cons_append, listContainsSeq, Bool.or_eq_true]
    rcases hh with hh | hh
    · exact Or.inl (lsw_extend _ _ _ hh)
    · exact Or.inr (ih b hh)

/-- String form: a substring occurrence survives prepending. -/
theorem scs_append_left {n : String} (a h : String) (hh : strContainsSub n h = true) :
    strContainsSub n (a ++ h) = true := by
  rw [strContainsSub, String.data_append]
  exact lcs_append_left _ _ _ hh

/-- String form: a substring occurrence survives appending. -/
theorem scs_append_right {n : String} (h b : String) (hh : strContainsSub n h = true) :
    strContainsSub n (h ++ b) = true := by
  rw [strContainsSub, String.data_append]
  exact lcs_append_right _ _ _ hh

/-- A string occurs in itself followed by anything. -/
theorem scs_self_append (n b : String) : strContainsSub n (n ++ b) = true := by
  rw [strContainsSub, String.data_append]
  exact lcs_of_lsw _ _ (lsw_refl_append _ _)

/-- The require line of every selected identifier occurs in the
accumulated `extraRequires` text of its list. -/
theorem requireLines_contains (slug id : String) :
    ∀ libs : List String, id ∈ libs →
      strContainsSub (requireLineFor slug id) (requireLines slug libs) = true := by
  intro libs
  induction libs with
  | nil => intro h; simp at h
  | cons l rest ih =>
    intro hmem
    rcases List.mem_cons.mp hmem with h | h
    · subst h
      rw [requireLines]
      exact scs_self_append _ _
    · rw [requireLines]
      exact scs_append_left _ _ (ih h)

/-- The core class text contains the require line of every identifier
appearing in `opts.libraries` or `opts.snippets` (no catalog filtering). -/
theorem coreClass_contains_requireLine (pluginClass loaderClass adminClass publicClass
    nspace slug : String) (opts : PluginOptions) (id : String)
    (hid : id ∈ opts.libraries ∨ id ∈ opts.snippets) :
    strContainsSub (requireLineFor slug id)
      (generateCoreClass pluginClass loaderClass adminClass publicClass nspace slug opts) =
      true := by
  simp only [generateCoreClass]
  apply scs_append_right
  apply scs_append_left
  rcases hid with h | h
  · exact scs_append_right _ _ (requireLines_contains slug id _ h)
  · exact scs_append_left _ _ (requireLines_contains slug id _ h)

/-! ## Helper lemmas: path disequalities -/

/-- String append is associative. -/
theorem strAppendAssoc (x y z : String) : (x ++ y) ++ z = x ++ (y ++ z) :=
  strEqOfData (by simp [String.data_append, List.append_assoc])

/-- An append with a non-empty right part is non-empty. -/
theorem strAppendNeEmptyRight (x y : String) (hy : y ≠ "") : x ++ y ≠ "" := by
  intro he
  rw [strEmptyIffData, String.data_append, List.append_eq_nil] at he
  exact hy ((strEmptyIffData y).mpr he.2)

/-- Cancel a common left part of a string append. -/
theorem strLeftCancel (a x y : String) (h : a ++ x = a ++ y) : x = y := by
  have hd := congrArg String.data h
  rw [String.data_append, String.data_append] at hd
  exact strEqOfData (List.append_cancel_left hd)

/-- Cancel common left and right parts of a string append. -/
theorem strMidCancel (a b x y : String) (h : a ++ x ++ b = a ++ y ++ b) : x = y := by
  have hd := congrArg String.data h
  simp only [String.data_append] at hd
  exact strEqOfData (List.append_cancel_left (List.append_cancel_right hd))

/-- Strings of different lengths differ. -/
theorem strNeOfLen {s t : String} (h : s.data.length ≠ t.data.length) : s ≠ t :=
  fun he => h (by rw [he])

/-- Strings with different first characters differ. -/
theorem strNeOfHead {s t : String} {c d : Char} (hs : s.data.head? = some c)
    (ht : t.data.head? = some d) (hcd : c ≠ d) : s ≠ t := by
  intro he
  rw [he, ht] at hs
  exact hcd (Option.some.inj hs).symm

/-- The head of an append whose left part starts with `c`. -/
theorem strHeadAppend (a b : String) (c : Char) (h : a.data.head? = some c) :
    (a ++ b).data.head? = some c := by
  rw [String.data_append]
  cases ha : a.data with
  | nil => rw [ha] at h; cases h
  | cons x xs =>
    rw [ha] at h
    simpa using h

/-- `pathJoin` with a non-empty second component is non-empty. -/
theorem pathJoin_ne_empty (a b : String) (hb : b ≠ "") : pathJoin a b ≠ "" := by
  by_cases ha : a = ""
  · subst ha
    rw [show pathJoin ("") b = b from by simp [pathJoin, hb]]
    exact hb
  · rw [show pathJoin a b = a ++ "/" ++ b from by simp [pathJoin, ha, hb]]
    exact strAppendNeEmptyRight _ _ hb

/-- Nested `pathJoin` flattens to a single slash-joined relative path. -/
theorem pathJoin_assoc_rel (a b c : String) (hb : b ≠ "") (hc : c ≠ "") :
    pathJoin (pathJoin a b) c = pathJoin a (b ++ "/" ++ c) := by
  have hbc : b ++ "/" ++ c ≠ "" := strAppendNeEmptyRight _ _ hc
  by_cases ha : a = ""
  · subst ha
    rw [show pathJoin ("") b = b from by simp [pathJoin, hb]]
    rw [show pathJoin ("") (b ++ "/" ++ c) = b ++ "/" ++ c from by simp [pathJoin, hbc]]
    simp [pathJoin, hb, hc]
  · have hab : a ++ "/" ++ b ≠ "" := strAppendNeEmptyRight _ _ hb
    rw [show pathJoin a b = a ++ "/" ++ b from by simp [pathJoin, ha, hb]]
    rw [show pathJoin (a ++ "/" ++ b) c = a ++ "/" ++ b ++ "/" ++ c from by
      simp [pathJoin, hab, hc]]
    rw [show pathJoin a (b ++ "/" ++ c) = a ++ "/" ++ (b ++ "/" ++ c) from by
      simp [pathJoin, ha, hbc]]
    simp only [strAppendAssoc]

/-- `pathJoin` is injective in its second argument on non-empty names. -/
theorem pathJoin_right_cancel (p x y : String) (hx : x ≠ "") (hy : y ≠ "")
    (h : pathJoin p x = pathJoin p y) : x = y := by
  by_cases hp : p = ""
  · simpa [pathJoin, hp, hx, hy] using h
  · rw [pathJoin, if_neg hp, if_neg hx, pathJoin, if_neg hp, if_neg hy] at h
    exact strLeftCancel (p ++ "/") _ _ h

/-! ## Helper lemmas: paths not written -/

/-- An upsert only adds its own path. -/
theorem not_mem_upsert (p c q : String) (hqp : q ≠ p) :
    ∀ files : List (String × String), q ∉ files.map Prod.fst →
      q ∉ (upsertFile files p c).map Prod.fst := by
  intro files
  induction files with
  | nil =>
    intro _ hmem
    rcases List.mem_cons.mp hmem with h | h
    · exact hqp h
    · simp at h
  | cons e rest ih =>
    rcases e with ⟨a, b⟩
    intro hnot hmem
    by_cases hap : a = p
    · rw [upsertFile, if_pos hap] at hmem
      rcases List.mem_cons.mp hmem with h | h
      · exact hqp h
      · exact hnot (by simp only [List.map_cons]; exact List.mem_cons_of_mem _ h)
    · rw [upsertFile, if_neg hap] at hmem
      rcases List.mem_cons.mp hmem with h | h
      · exact hnot (by simp [h])
      · exact ih (fun hm => hnot (by simp only [List.map_cons]; exact List.mem_cons_of_mem _ hm)) h

/-- `ensureDirFS` never changes the file list. -/
theorem files_ensureDirFS (fs : FileSystem) (p : String) : (ensureDirFS fs p).files = fs.files := by
  rw [ensureDirFS]
  split <;> rfl

/-- Creating the fixed subdirectories never changes the file list. -/
theorem files_foldl_ensureDir (d : String) :
    ∀ (l : List String) (fs : FileSystem),
      (List.foldl (fun f sub => ensureDirFS f (pathJoin d sub)) fs l).files = fs.files := by
  intro l
  induction l with
  | nil => intro fs; rfl
  | cons s rest ih =>
    intro fs
    rw [List.foldl_cons, ih, files_ensureDirFS]

/-- A write at a different path cannot introduce `q`. -/
theorem not_mem_writeFileFS (fs : FileSystem) (p c q : String) (hqp : q ≠ p)
    (hnot : q ∉ fs.files.map Prod.fst) : q ∉ (writeFileFS fs p c).files.map Prod.fst := by
  rw [writeFileFS]
  exact not_mem_upsert p c q hqp _ (by rw [files_ensureDirFS]; exact hnot)

/-- The library stub loop writes only catalog stub paths (and may stop
early at an inherited member, writing nothing there). -/
theorem not_mem_writeLibraryStubs (slug pd q : String)
    (h : ∀ lib info, AVAILABLE_LIBRARIES lib = JsProp.own info →
      q ≠ pathJoin (pathJoin pd ("includes")) ("class-" ++ slug ++ "-" ++ lib ++ ".php")) :
    ∀ (libs : List String) (fs : FileSystem), q ∉ fs.files.map Prod.fst →
      q ∉ (writeLibraryStubs slug pd libs fs).2.files.map Prod.fst := by
  intro libs
  induction libs with
  | nil => intro fs hnot; exact hnot
  | cons l rest ih =>
    intro fs hnot
    cases hA : AVAILABLE_LIBRARIES l with
    | own info =>
      rw [writeLibraryStubs, hA]
      exact ih _ (not_mem_writeFileFS _ _ _ _ (h l info hA) hnot)
    | inherited =>
      rw [writeLibraryStubs, hA]
      exact hnot
    | absent =>
      rw [writeLibraryStubs, hA]
      exact ih fs hnot

/-- The snippet stub loop writes only catalog stub paths (and may stop
early at an inherited member, writing nothing there). -/
theorem not_mem_writeSnippetStubs (slug pd q : String) (cfg : Option SettingsConfig)
    (h : ∀ sn info, AVAILABLE_SNIPPETS sn = JsProp.own info →
      q ≠ pathJoin (pathJoin pd ("includes")) ("class-" ++ slug ++ "-" ++ sn ++ ".php")) :
    ∀ (snips : List String) (fs : FileSystem), q ∉ fs.files.map Prod.fst →
      q ∉ (writeSnippetStubs slug pd cfg snips fs).2.files.map Prod.fst := by
  intro snips
  induction snips with
  | nil => intro fs hnot; exact hnot
  | cons sn rest ih =>
    intro fs hnot
    cases hA : AVAILABLE_SNIPPETS sn with
    | own info =>
      rw [writeSnippetStubs, hA]
      exact ih _ (not_mem_writeFileFS _ _ _ _ (h sn info hA) hnot)
    | inherited =>
      rw [writeSnippetStubs, hA]
      exact hnot
    | absent =>
      rw [writeSnippetStubs, hA]
      exact ih fs hnot

/-- The whole stub phase writes only catalog stub paths. -/
theorem not_mem_writeStubPhase (slug pd q : String) (cfg : Option SettingsConfig)
    (hL : ∀ lib info, AVAILABLE_LIBRARIES lib = JsProp.own info →
      q ≠ pathJoin (pathJoin pd ("includes")) ("class-" ++ slug ++ "-" ++ lib ++ ".php"))
    (hS : ∀ sn info, AVAILABLE_SNIPPETS sn = JsProp.own info →
      q ≠ pathJoin (pathJoin pd ("includes")) ("class-" ++ slug ++ "-" ++ sn ++ ".php"))
    (libs snips : List String) (fs : FileSystem) (hnot : q ∉ fs.files.map Prod.fst) :
    q ∉ (writeStubPhase slug pd cfg libs snips fs).2.files.map Prod.fst := by
  have h1 := not_mem_writeLibraryStubs slug pd q hL libs fs hnot
  rcases hres : writeLibraryStubs slug pd libs fs with ⟨r, f⟩
  rw [hres] at h1
  unfold writeStubPhase
  rw [hres]
  cases r with
  | ok u => exact not_mem_writeSnippetStubs slug pd q cfg hS snips f h1
  | error e => exact h1

/-- Two `class-<slug>-<x>.php` names with different `x` differ. -/
theorem classDashNe (slug id other rest : String) (hrest : rest = "-" ++ other ++ ".php")
    (hio : id ≠ other) :
    ("class-" ++ slug ++ "-" ++ id ++ ".php" : String) ≠ "class-" ++ slug ++ rest := by
  intro he
  apply hio
  rw [hrest] at he
  have he2 : ("class-" ++ slug ++ "-" ++ id ++ ".php" : String) =
      "class-" ++ slug ++ "-" ++ other ++ ".php" := by
    rw [he]
    simp only [strAppendAssoc]
  exact strMidCancel ("class-" ++ slug ++ "-") (".php") id other he2

/-- `class-<slug>-<id>.php` never equals the core file `class-<slug>.php`. -/
theorem classCoreNe (slug id : String) :
    ("class-" ++ slug ++ "-" ++ id ++ ".php" : String) ≠ "class-" ++ slug ++ ".php" := by
  intro he
  have hd := congrArg String.data he
  simp only [String.data_append, List.append_assoc] at hd
  have h2 := List.append_cancel_left (List.append_cancel_left hd)
  have hlen := congrArg List.length h2
  simp only [List.length_append] at hlen
  have e1 : ("-" : String).data.length = 1 := rfl
  rw [e1] at hlen
  omega

/-- The includes-relative target path never equals the entry file name. -/
theorem incRelNe_main (slug id : String) :
    ("includes" ++ "/" ++ ("class-" ++ slug ++ "-" ++ id ++ ".php") : String) ≠
      slug ++ ".php" := by
  intro he
  have hd := congrArg String.data he
  simp only [String.data_append, List.append_assoc] at hd
  have hlen := congrArg List.length hd
  simp only [List.length_append] at hlen
  have e1 : ("includes" : String).data.length = 8 := rfl
  have e2 : ("/" : String).data.length = 1 := rfl
  have e3 : ("class-" : String).data.length = 6 := rfl
  have e4 : ("-" : String).data.length = 1 := rfl
  have e5 : (".php" : String).data.length = 4 := rfl
  rw [e1, e2, e3, e4, e5] at hlen
  omega

/-- The includes-relative target path starts with the letter i. -/
theorem incRelHead (x : String) :
    (("includes" ++ "/" ++ x) : String).data.head? = some ('i') :=
  strHeadAppend ("includes" ++ "/") x ('i') (by decide)

/-- Claim C8 (counterexample to the final clause as universally stated):
the out-of-catalog identifier "loader" produces a core-class require line
whose target `includes/class-demo-loader.php` IS written by the same call
— it is the fixed loader include file. -/
theorem claim8_counterexample :
    isKnownLibrary ("loader") = false
    ∧ isKnownSnippet ("loader") = false
    ∧ ("loader") ∈ loaderOpts.libraries
    ∧ strContainsSub (requireLineFor ("demo") ("loader"))
        ((fileContent? (generatePlugin loaderOpts ("/cwd") emptyFS).2
          ("/tmp/out/demo/includes/class-demo.php")).getD ("")) = true
    ∧ ("/tmp/out/demo/includes/class-demo-loader.php") ∈
        ((generatePlugin loaderOpts ("/cwd") emptyFS).2.files.map Prod.fst)
    ∧ reqTarget loaderOpts ("/cwd") ("loader") =
        "/tmp/out/demo/includes/class-demo-loader.php" := by
  refine ⟨by decide, by decide, by decide, by decide, by decide, by decide⟩

/-- The includes-relative target differs from any string with a different
first character. -/
theorem incRelNeOf (slug id t : String) (d : Char) (ht : t.data.head? = some d)
    (hd : ('i' : Char) ≠ d) :
    ("includes" ++ "/" ++ ("class-" ++ slug ++ "-" ++ id ++ ".php") : String) ≠ t :=
  strNeOfHead (incRelHead _) ht hd

/-- The includes-relative require target is never among the files written
by the generation phase, for an identifier outside both catalogs whose
name avoids the three fixed include files. -/
theorem reqTarget_not_written (opts : PluginOptions) (cwd : String) (fs : FileSystem)
    (id : String) (hlib : isKnownLibrary id = false) (hsnip : isKnownSnippet id = false)
    (hact : id ≠ "activator") (hdeact : id ≠ "deactivator") (hload : id ≠ "loader")
    (hfs : reqTarget opts cwd id ∉ fs.files.map Prod.fst) :
    reqTarget opts cwd id ∉ ((performGeneration opts cwd fs).2.files.map Prod.fst) := by
  have hrelT : ("class-" ++ resolveSlug opts ++ "-" ++ id ++ ".php" : String) ≠ "" :=
    strAppendNeEmptyRight _ _ (by decide)
  have hreq : reqTarget opts cwd id =
      pathJoin (pluginDirOf opts cwd)
        ("includes" ++ "/" ++ ("class-" ++ resolveSlug opts ++ "-" ++ id ++ ".php")) := by
    rw [reqTarget, pathJoin_assoc_rel _ _ _ (by decide) hrelT]
  have hincrel :
      ("includes" ++ "/" ++ ("class-" ++ resolveSlug opts ++ "-" ++ id ++ ".php") : String) ≠
        "" := strAppendNeEmptyRight _ _ hrelT
  have hrel2 : ∀ r : String, r ≠ "" →
      (("includes" ++ "/" ++ ("class-" ++ resolveSlug opts ++ "-" ++ id ++ ".php") : String) ≠
        r) →
      reqTarget opts cwd id ≠ pathJoin (pluginDirOf opts cwd) r := by
    intro r hr hne heq
    rw [hreq] at heq
    exact hne (pathJoin_right_cancel _ _ _ hincrel hr heq)
  have hstub : ∀ x : String, x ≠ id →
      reqTarget opts cwd id ≠
        pathJoin (pathJoin (pluginDirOf opts cwd) ("includes"))
          ("class-" ++ resolveSlug opts ++ "-" ++ x ++ ".php") := by
    intro x hx heq
    rw [reqTarget] at heq
    have h1 := pathJoin_right_cancel _ _ _ hrelT (strAppendNeEmptyRight _ _ (by decide)) heq
    exact hx (strMidCancel ("class-" ++ resolveSlug opts ++ "-") (".php") id x h1).symm
  have hfix : ∀ rest other : String, rest = "-" ++ other ++ ".php" → id ≠ other →
      reqTarget opts cwd id ≠
        pathJoin (pathJoin (pluginDirOf opts cwd) ("includes"))
          ("class-" ++ resolveSlug opts ++ rest) := by
    intro rest other hr hi heq
    rw [reqTarget] at heq
    have hrne : ("class-" ++ resolveSlug opts ++ rest : String) ≠ "" :=
      strAppendNeEmptyRight _ _ (by rw [hr]; exact strAppendNeEmptyRight _ _ (by decide))
    have h1 := pathJoin_right_cancel _ _ _ hrelT hrne heq
    exact classDashNe (resolveSlug opts) id other rest hr hi h1
  have hcore : reqTarget opts cwd id ≠
      pathJoin (pathJoin (pluginDirOf opts cwd) ("includes"))
        ("class-" ++ resolveSlug opts ++ ".php") := by
    intro heq
    rw [reqTarget] at heq
    exact classCoreNe (resolveSlug opts) id
      (pathJoin_right_cancel _ _ _ hrelT (strAppendNeEmptyRight _ _ (by decide)) heq)
  have hcssjs : ∀ sub1 sub2 tail : String, ∀ d : Char,
      ((sub1 ++ "/" ++ sub2 ++ "/") : String).data.head? = some d → ('i' : Char) ≠ d →
      sub1 ≠ "" → sub2 ≠ "" → tail ≠ "" →
      reqTarget opts cwd id ≠
        pathJoin (pathJoin (pathJoin (pluginDirOf opts cwd) sub1) sub2)
          (resolveSlug opts ++ tail) := by
    intro sub1 sub2 tail d hhead hd h1 h2 h3
    have htail : resolveSlug opts ++ tail ≠ "" := strAppendNeEmptyRight _ _ h3
    rw [pathJoin_assoc_rel (pluginDirOf opts cwd) sub1 sub2 h1 h2,
      pathJoin_assoc_rel (pluginDirOf opts cwd) (sub1 ++ "/" ++ sub2)
        (resolveSlug opts ++ tail) (strAppendNeEmptyRight _ _ h2) htail]
    exact hrel2 _ (strAppendNeEmptyRight _ _ htail)
      (incRelNeOf _ _ _ d (strHeadAppend (sub1 ++ "/" ++ sub2 ++ "/") _ d hhead) hd)
  have hcls : ∀ sub rel : String, ∀ d : Char,
      ((sub ++ "/") : String).data.head? = some d → ('i' : Char) ≠ d →
      sub ≠ "" → rel ≠ "" →
      reqTarget opts cwd id ≠ pathJoin (pathJoin (pluginDirOf opts cwd) sub) rel := by
    intro sub rel d hhead hd h1 h2
    rw [pathJoin_assoc_rel (pluginDirOf opts cwd) sub rel h1 h2]
    exact hrel2 _ (strAppendNeEmptyRight _ _ h2)
      (incRelNeOf _ _ _ d (strHeadAppend (sub ++ "/") rel d hhead) hd)
  simp only [performGeneration]
  apply not_mem_writeStubPhase
  · intro lib info hsome
    by_cases hl : lib = id
    · subst hl
      have : False := by simp [isKnownLibrary, hsome] at hlib
      exact this.elim
    · exact hstub lib hl
  · intro sn info hsome
    by_cases hsn : sn = id
    · subst hsn
      have : False := by simp [isKnownSnippet, hsome] at hsnip
      exact this.elim
    · exact hstub sn hsn
  apply not_mem_writeFileFS
  · exact hcssjs ("public") ("js") ("-public.js") ('p') (by decide) (by decide) (by decide)
      (by decide) (by decide)
  apply not_mem_writeFileFS
  · exact hcssjs ("public") ("css") ("-public.css") ('p') (by decide) (by decide) (by decide)
      (by decide) (by decide)
  apply not_mem_writeFileFS
  · exact hcssjs ("admin") ("js") ("-admin.js") ('a') (by decide) (by decide) (by decide)
      (by decide) (by decide)
  apply not_mem_writeFileFS
  · exact hcssjs ("admin") ("css") ("-admin.css") ('a') (by decide) (by decide) (by decide)
      (by decide) (by decide)
  have hrest : ∀ g : FileSystem, reqTarget opts cwd id ∉ g.files.map Prod.fst →
      reqTarget opts cwd id ∉
        ((writeFileFS (writeFileFS (writeFileFS (writeFileFS (writeFileFS (writeFileFS
          (writeFileFS (writeFileFS g
            (pathJoin (pluginDirOf opts cwd) (resolveSlug opts ++ ".php"))
            (generateMainPluginFile (normalizeOpts opts (resolveSlug opts)) (resolveSlug opts)
              (toNamespace (resolveSlug opts)) (toNamespace (resolveSlug opts))
              (toNamespace (resolveSlug opts) ++ "_Loader")
              (toNamespace (resolveSlug opts) ++ "_Admin")
              (toNamespace (resolveSlug opts) ++ "_Public")
              (toNamespace (resolveSlug opts) ++ "_Activator")
              (toNamespace (resolveSlug opts) ++ "_Deactivator")))
          (pathJoin (pathJoin (pluginDirOf opts cwd) ("includes"))
            ("class-" ++ resolveSlug opts ++ "-activator.php"))
          (generateActivationClass (toNamespace (resolveSlug opts) ++ "_Activator")))
          (pathJoin (pathJoin (pluginDirOf opts cwd) ("includes"))
            ("class-" ++ resolveSlug opts ++ "-deactivator.php"))
          (generateDeactivationClass (toNamespace (resolveSlug opts) ++ "_Deactivator")))
          (pathJoin (pathJoin (pluginDirOf opts cwd) ("includes"))
            ("class-" ++ resolveSlug opts ++ ".php"))
          (generateCoreClass (toNamespace (resolveSlug opts))
            (toNamespace (resolveSlug opts) ++ "_Loader")
            (toNamespace (resolveSlug opts) ++ "_Admin")
            (toNamespace (resolveSlug opts) ++ "_Public") (toNamespace (resolveSlug opts))
            (resolveSlug opts) (normalizeOpts opts (resolveSlug opts))))
          (pathJoin (pathJoin (pluginDirOf opts cwd) ("includes"))
            ("class-" ++ resolveSlug opts ++ "-loader.php"))
          (generateLoaderClass (toNamespace (resolveSlug opts) ++ "_Loader")))
          (pathJoin (pathJoin (pluginDirOf opts cwd) ("admin"))
            ("class-" ++ resolveSlug opts ++ "-admin.php"))
          (generateAdminClass (toNamespace (resolveSlug opts) ++ "_Admin") (resolveSlug opts)))
          (pathJoin (pathJoin (pluginDirOf opts cwd) ("public"))
            ("class-" ++ resolveSlug opts ++ "-public.php"))
          (generatePublicClass (toNamespace (resolveSlug opts) ++ "_Public")
            (resolveSlug opts)))
          (pathJoin (pluginDirOf opts cwd) ("readme.txt"))
          (generateReadme (normalizeOpts opts (resolveSlug opts))
            (resolveSlug opts))).files.map Prod.fst) := by
    intro g hg
    apply not_mem_writeFileFS
    · exact hrel2 ("readme.txt") (by decide)
        (incRelNeOf _ _ ("readme.txt") ('r') (by decide) (by decide))
    apply not_mem_writeFileFS
    · exact hcls ("public") ("class-" ++ resolveSlug opts ++ "-public.php") ('p') (by decide)
        (by decide) (by decide) (strAppendNeEmptyRight _ _ (by decide))
    apply not_mem_writeFileFS
    · exact hcls ("admin") ("class-" ++ resolveSlug opts ++ "-admin.php") ('a') (by decide)
        (by decide) (by decide) (strAppendNeEmptyRight _ _ (by decide))
    apply not_mem_writeFileFS
    · exact hfix ("-loader.php") ("loader") (by decide) hload
    apply not_mem_writeFileFS
    · exact hcore
    apply not_mem_writeFileFS
    · exact hfix ("-deactivator.php") ("deactivator") (by decide) hdeact
    apply not_mem_writeFileFS
    · exact hfix ("-activator.php") ("activator") (by decide) hact
    apply not_mem_writeFileFS
    · exact hrel2 (resolveSlug opts ++ ".php") (strAppendNeEmptyRight _ _ (by decide))
        (incRelNe_main _ _)
    exact hg
  by_cases hcomp : (normalizeOpts opts (resolveSlug opts)).withComposer = true
  · rw [if_pos hcomp]
    apply not_mem_writeFileFS
    · exact hrel2 ("composer.json") (by decide)
        (incRelNeOf _ _ ("composer.json") ('c') (by decide) (by decide))
    apply hrest
    rw [files_foldl_ensureDir, files_ensureDirFS]
    exact hfs
  · rw [if_neg hcomp]
    apply hrest
    rw [files_foldl_ensureDir, files_ensureDirFS]
    exact hfs

/-- C8 as amended: for every identifier selected in `opts.libraries` or
`opts.snippets`, the rendered core class contains its require_once line
(no catalog filtering); and when the identifier is outside both catalogs
AND distinct from the three fixed include-file names (loader, activator,
deactivator), the referenced includes/class-<slug>-<id>.php is a file that
the same generate call never writes.  (The original claim, quantified over
every non-catalog identifier, fails at id = "loader": see the
counterexample.) -/
theorem claim8_amended (opts : PluginOptions) (cwd : String) (fs : FileSystem) (id : String)
    (pluginClass loaderClass adminClass publicClass nspace : String)
    (hid : id ∈ opts.libraries ∨ id ∈ opts.snippets)
    (hlib : isKnownLibrary id = false) (hsnip : isKnownSnippet id = false)
    (hact : id ≠ "activator") (hdeact : id ≠ "deactivator") (hload : id ≠ "loader")
    (hfs : reqTarget opts cwd id ∉ fs.files.map Prod.fst) :
    strContainsSub (requireLineFor (resolveSlug opts) id)
      (generateCoreClass pluginClass loaderClass adminClass publicClass nspace
        (resolveSlug opts) opts) = true
    ∧ reqTarget opts cwd id ∉ ((generatePlugin opts cwd fs).2.files.map Prod.fst) := by
  refine ⟨coreClass_contains_requireLine _ _ _ _ _ _ opts id hid, ?_⟩
  rcases hrd : readdirFS fs (pluginDirOf opts cwd) with _ | entries
  · simp only [generatePlugin, hrd]
    exact reqTarget_not_written opts cwd fs id hlib hsnip hact hdeact hload hfs
  · cases entries with
    | nil =>
      simp only [generatePlugin, hrd]
      exact reqTarget_not_written opts cwd fs id hlib hsnip hact hdeact hload hfs
    | cons e es =>
      simp only [generatePlugin, hrd]
      exact hfs

/-- Witness for C8 (amended) at the unknown identifier "zzz". -/
theorem claim8_witness :
    strContainsSub (requireLineFor (resolveSlug unknownOpts) ("zzz"))
      (generateCoreClass ("Demo") ("Demo_Loader") ("Demo_Admin") ("Demo_Public") ("Demo")
        (resolveSlug unknownOpts) unknownOpts) = true
    ∧ reqTarget unknownOpts ("/cwd") ("zzz") ∉
        ((generatePlugin unknownOpts ("/cwd") emptyFS).2.files.map Prod.fst) :=
  claim8_amended unknownOpts ("/cwd") emptyFS ("zzz") ("Demo") ("Demo_Loader") ("Demo_Admin")
    ("Demo_Public") ("Demo") (Or.inl (by decide)) (by decide) (by decide) (by decide)
    (by decide) (by decide) (by decide)
